import Mathlib

set_option maxHeartbeats 1000000

/-
Shallow embedding of the VirtualRouter reconciliation controller
(src/internal/daemon/netlink/config.go, Go package virtualroutermanager).

The controller logic of syncHandler, updateVirtualRouterStatus, newDeployment,
the four ensure functions, processNextWorkItem and the informer event handlers
is translated here as pure functions over an explicit cluster state.  API
write calls are recorded in a trace (WriteCall), events in a second trace.
Transient store failures of the real API server are modelled by error-key
sets on the cluster state (getErrors / createErrors / updateErrors): a call
on a key in the corresponding set fails the way a non-NotFound API error does.
The VirtualRouter resource type itself lives in a generated package outside
src/; its fields are taken from the spec's data-model section and from the
field accesses visible in config.go.
-/

/-- Owner linkage produced by metav1.NewControllerRef: kind, name, identity
token and the controlling-owner flag. -/
structure OwnerReference where
  kind : String
  name : String
  uid : Nat
  controller : Bool
deriving DecidableEq, Repr

/-- One entry of VirtualRouter.Spec.NodeSelector, read as nodeSelector.Key
and nodeSelector.Value in newDeployment. -/
structure NodeSelectorEntry where
  key : String
  value : String
deriving DecidableEq, Repr

/-- VirtualRouter.Spec: the fields read by config.go (DeploymentName,
Replicas, Image, NodeSelector, Affinity).  Affinity is opaque to the
controller and modelled as an uninterpreted string. -/
structure VRSpec where
  deploymentName : String
  replicas : Option Int
  image : String
  nodeSelector : List NodeSelectorEntry
  affinity : String
deriving DecidableEq, Repr

/-- VirtualRouter.Status: the controller writes only AvailableReplicas. -/
structure VRStatus where
  availableReplicas : Int
deriving DecidableEq, Repr

/-- The VirtualRouter intent object (metadata fields used by config.go plus
spec and status). -/
structure VirtualRouter where
  name : String
  ns : String
  uid : Nat
  resourceVersion : String
  spec : VRSpec
  status : VRStatus
deriving DecidableEq, Repr

/-- Container environment entry. -/
structure EnvVar where
  name : String
  value : String
deriving DecidableEq, Repr

/-- corev1.Capabilities (only the Add list is set by newDeployment). -/
structure Capabilities where
  add : List String
deriving DecidableEq, Repr

/-- corev1.SecurityContext as used by newDeployment. -/
structure SecurityContext where
  capabilities : Option Capabilities
  privileged : Option Bool
deriving DecidableEq, Repr

/-- corev1.Container as used by newDeployment. -/
structure Container where
  name : String
  image : String
  imagePullPolicy : String
  env : List EnvVar
  securityContext : Option SecurityContext
deriving DecidableEq, Repr

/-- corev1.PodSpec as used by newDeployment.  The node selector is a string
map, modelled as an association list with map-insert semantics. -/
structure PodSpec where
  affinity : Option String
  serviceAccountName : String
  nodeSelector : List (String × String)
  containers : List Container
deriving DecidableEq, Repr

/-- corev1.PodTemplateSpec: object meta (labels, annotations, finalizers)
plus the pod spec. -/
structure PodTemplateSpec where
  labels : List (String × String)
  annotations : List (String × String)
  finalizers : List String
  spec : PodSpec
deriving DecidableEq, Repr

/-- metav1.LabelSelector (only MatchLabels is set). -/
structure LabelSelector where
  matchLabels : List (String × String)
deriving DecidableEq, Repr

/-- appsv1.DeploymentSpec as used by config.go.  Replicas is a nullable
pointer in Go and hence an Option here. -/
structure DeploymentSpec where
  replicas : Option Int
  selector : LabelSelector
  template : PodTemplateSpec
deriving DecidableEq, Repr

/-- appsv1.DeploymentStatus (only AvailableReplicas is read). -/
structure DeploymentStatus where
  availableReplicas : Int
deriving DecidableEq, Repr

/-- appsv1.Deployment with the metadata fields config.go reads. -/
structure Deployment where
  name : String
  ns : String
  resourceVersion : String
  ownerReferences : List OwnerReference
  spec : DeploymentSpec
  status : DeploymentStatus
deriving DecidableEq, Repr

/-- corev1.Namespace as created by ensureVirtualRouterNamespace. -/
structure NamespaceObj where
  name : String
  ownerReferences : List OwnerReference
deriving DecidableEq, Repr

/-- corev1.ServiceAccount as created by ensureVirtualRouterSA. -/
structure ServiceAccountObj where
  name : String
  ns : String
  ownerReferences : List OwnerReference
deriving DecidableEq, Repr

/-- rbacv1.PolicyRule. -/
structure PolicyRule where
  apiGroups : List String
  resources : List String
  verbs : List String
deriving DecidableEq, Repr

/-- rbacv1.Role as created by ensureVirtualRouterRole. -/
structure RoleObj where
  name : String
  ns : String
  ownerReferences : List OwnerReference
  rules : List PolicyRule
deriving DecidableEq, Repr

/-- rbacv1.RoleRef. -/
structure RoleRef where
  apiGroup : String
  kind : String
  name : String
deriving DecidableEq, Repr

/-- rbacv1.Subject. -/
structure SubjectObj where
  kind : String
  name : String
deriving DecidableEq, Repr

/-- rbacv1.RoleBinding as created by ensureVirtualRouterRoleBinding. -/
structure RoleBindingObj where
  name : String
  ns : String
  ownerReferences : List OwnerReference
  roleRef : RoleRef
  subjects : List SubjectObj
deriving DecidableEq, Repr

/-- Kinds of store objects, used to key injected transient API errors. -/
inductive ObjKind where
  | kNamespace
  | kServiceAccount
  | kRole
  | kRoleBinding
  | kDeployment
  | kVirtualRouter
deriving DecidableEq, Repr

/-- A store key: kind, namespace (empty for cluster-scoped) and name. -/
abbrev ErrKey := ObjKind × String × String

/-- The cluster state visible to the controller: the informer caches /
store contents for each kind, plus the sets of keys on which the external
store currently fails get, create or update calls with a non-NotFound
error. -/
structure Cluster where
  virtualRouters : List VirtualRouter
  deployments : List Deployment
  namespaces : List NamespaceObj
  serviceAccounts : List ServiceAccountObj
  roles : List RoleObj
  roleBindings : List RoleBindingObj
  getErrors : List ErrKey
  createErrors : List ErrKey
  updateErrors : List ErrKey
deriving DecidableEq, Repr

/-- A write call issued to the Resource Store (create or update; status
writes to the VirtualRouter go through updateVirtualRouter). -/
inductive WriteCall where
  | createNamespace (o : NamespaceObj)
  | createServiceAccount (o : ServiceAccountObj)
  | createRole (o : RoleObj)
  | createRoleBinding (o : RoleBindingObj)
  | createDeployment (d : Deployment)
  | updateDeployment (d : Deployment)
  | updateVirtualRouter (vr : VirtualRouter)
deriving DecidableEq, Repr

/-- Event severity used by the recorder. -/
inductive EventType where
  | warning
  | normal
deriving DecidableEq, Repr

/-- A recorded event (corev1 event against the VirtualRouter object). -/
structure Event where
  etype : EventType
  reason : String
  message : String
deriving DecidableEq, Repr

/-- Result of one syncHandler invocation: nil return, non-nil error return,
or a run-time nil-pointer dereference. -/
inductive SyncResult where
  | ok
  | errored (msg : String)
  | panicked
deriving DecidableEq, Repr

/-- Outcome of a syncHandler invocation: result, the trace of store write
calls issued, the recorded events, and the resulting cluster state. -/
structure SyncOutcome where
  res : SyncResult
  writes : List WriteCall
  events : List Event
  cluster : Cluster
deriving DecidableEq, Repr

/-- Constant SERVICE_ACCOUNT_NAME from config.go. -/
def SERVICE_ACCOUNT_NAME : String := "virtualrouter-sa"

/-- Constant ROLE_NAME from config.go. -/
def ROLE_NAME : String := "virtualrouter-role"

/-- Constant ROLE_BINDING_NAME from config.go. -/
def ROLE_BINDING_NAME : String := "virtualrouter-rb"

/-- Constant VIRTUALROUTER_LABEL from config.go. -/
def VIRTUALROUTER_LABEL : String := "virtualrouterInstance"

/-- Constant VIRTUALROUTER_DAEMON_FINALIZER from config.go. -/
def VIRTUALROUTER_DAEMON_FINALIZER : String := "virtualrouter/daemon-finalizer"

/-- Event reason SuccessSynced from config.go. -/
def SuccessSynced : String := "Synced"

/-- Event reason ErrResourceExists from config.go. -/
def ErrResourceExists : String := "ErrResourceExists"

/-- Message MessageResourceSynced from config.go. -/
def MessageResourceSynced : String := "VirtualRouter synced successfully"

/-- Message MessageResourceExists from config.go, with the %q argument
applied. -/
def MessageResourceExists (resourceName : String) : String :=
  "Resource \"" ++ resourceName ++ "\" already exists and is not managed by VirtualRouter"

/-- Constant networkGroupName from config.go. -/
def networkGroupName : String := "network.tmaxanc.com"

/-- virtualrouter.GroupName, imported by config.go from the external
tmax-cloud/virtualrouter repository; its concrete value is outside src/ and
irrelevant to every claim, so it is fixed to the package name. -/
def virtualrouterGroupName : String := "networkcontroller"

/-- rbacv1.SchemeGroupVersion.Group, used for the RoleRef APIGroup. -/
def rbacGroupName : String := "rbac.authorization.k8s.io"

/-- metav1.NewControllerRef applied to a VirtualRouter with the
VirtualRouter kind: a controlling owner reference. -/
def NewControllerRef (vr : VirtualRouter) : OwnerReference :=
  { kind := "VirtualRouter", name := vr.name, uid := vr.uid, controller := true }

/-- metav1.GetControllerOf: the owner reference flagged as controller, if
any. -/
def getControllerOf (refs : List OwnerReference) : Option OwnerReference :=
  refs.find? (fun r => r.controller)

/-- metav1.IsControlledBy: the object has a controlling owner reference
whose UID is the owner's UID. -/
def isControlledBy (d : Deployment) (vr : VirtualRouter) : Bool :=
  match getControllerOf d.ownerReferences with
  | some r => r.uid == vr.uid
  | none => false

/-- Go map insertion on an association-list representation: the new binding
replaces any previous binding of the same key. -/
def mapInsert (m : List (String × String)) (k v : String) : List (String × String) :=
  (k, v) :: m.filter (fun p => !(p.1 == k))

/-- Go map lookup on the association-list representation. -/
def mapLookup (m : List (String × String)) (k : String) : Option String :=
  (m.find? (fun p => p.1 == k)).map (fun p => p.2)

/-- The nodeSelectorMap built by newDeployment: the intent's node selector
entries inserted left to right into an initially empty map. -/
def buildNodeSelectorMap (entries : List NodeSelectorEntry) : List (String × String) :=
  entries.foldl (fun acc e => mapInsert acc e.key e.value) []

/-- newDeployment from config.go: projects (newNS, virtualRouter) to the
desired Deployment, including the controlling owner reference. -/
def newDeployment (newNS : String) (vr : VirtualRouter) : Deployment :=
  { name := vr.spec.deploymentName
    ns := newNS
    resourceVersion := ""
    ownerReferences := [NewControllerRef vr]
    spec := {
      replicas := vr.spec.replicas
      selector := { matchLabels := [("app", VIRTUALROUTER_LABEL)] }
      template := {
        labels := [("app", VIRTUALROUTER_LABEL)]
        annotations := [("customresourceName", vr.name), ("customresourceNamespace", vr.ns)]
        finalizers := [VIRTUALROUTER_DAEMON_FINALIZER]
        spec := {
          affinity := some vr.spec.affinity
          serviceAccountName := "virtualrouter-sa"
          nodeSelector := buildNodeSelectorMap vr.spec.nodeSelector
          containers := [{
            name := vr.name
            image := vr.spec.image
            imagePullPolicy := "Always"
            env := [{ name := "POD_NAMESPACE", value := newNS }]
            securityContext := some {
              capabilities := some { add := ["NET_RAW", "NET_ADMIN", "SYS_ADMIN"] }
              privileged := some true } }] } } }
    status := { availableReplicas := 0 } }

/-- Lister read of a VirtualRouter by namespace and name. -/
def getVR (c : Cluster) (ns name : String) : Option VirtualRouter :=
  c.virtualRouters.find? (fun v => v.ns == ns && v.name == name)

/-- Lister read of a Deployment by namespace and name. -/
def getDeployment (c : Cluster) (ns name : String) : Option Deployment :=
  c.deployments.find? (fun d => d.ns == ns && d.name == name)

/-- Whether the namespace object exists in the store. -/
def nsExists (c : Cluster) (name : String) : Bool :=
  c.namespaces.any (fun n => n.name == name)

/-- Whether the well-known service account exists in the given namespace. -/
def saExists (c : Cluster) (ns : String) : Bool :=
  c.serviceAccounts.any (fun s => s.ns == ns && s.name == SERVICE_ACCOUNT_NAME)

/-- Whether the well-known role exists in the given namespace. -/
def roleExists (c : Cluster) (ns : String) : Bool :=
  c.roles.any (fun r => r.ns == ns && r.name == ROLE_NAME)

/-- Whether the well-known role binding exists in the given namespace. -/
def rbExists (c : Cluster) (ns : String) : Bool :=
  c.roleBindings.any (fun r => r.ns == ns && r.name == ROLE_BINDING_NAME)

/-- Whether a get call on the key fails with a non-NotFound error. -/
def hasGetError (c : Cluster) (k : ErrKey) : Bool :=
  c.getErrors.contains k

/-- Whether a create call on the key fails. -/
def hasCreateError (c : Cluster) (k : ErrKey) : Bool :=
  c.createErrors.contains k

/-- Whether an update call on the key fails. -/
def hasUpdateError (c : Cluster) (k : ErrKey) : Bool :=
  c.updateErrors.contains k

/-- Outcome of one ensure function: resulting cluster, write calls issued,
and the error returned (none for a nil return). -/
structure EnsureOut where
  cluster : Cluster
  writes : List WriteCall
  err : Option String
deriving DecidableEq, Repr

/-- The namespace object created by ensureVirtualRouterNamespace. -/
def newNamespaceObj (newNS : String) (vr : VirtualRouter) : NamespaceObj :=
  { name := newNS, ownerReferences := [NewControllerRef vr] }

/-- The service account created by ensureVirtualRouterSA. -/
def newServiceAccount (newNS : String) (vr : VirtualRouter) : ServiceAccountObj :=
  { name := SERVICE_ACCOUNT_NAME, ns := newNS, ownerReferences := [NewControllerRef vr] }

/-- The role created by ensureVirtualRouterRole. -/
def newRole (newNS : String) (vr : VirtualRouter) : RoleObj :=
  { name := ROLE_NAME
    ns := newNS
    ownerReferences := [NewControllerRef vr]
    rules := [
      { apiGroups := [virtualrouterGroupName]
        resources := ["natrules", "firewallrules", "loadbalancerrules"]
        verbs := ["get", "list", "watch", "create", "update", "patch", "delete"] },
      { apiGroups := [networkGroupName]
        resources := ["vpns"]
        verbs := ["get", "list", "watch"] }] }

/-- The role binding created by ensureVirtualRouterRoleBinding. -/
def newRoleBinding (newNS : String) (vr : VirtualRouter) : RoleBindingObj :=
  { name := ROLE_BINDING_NAME
    ns := newNS
    ownerReferences := [NewControllerRef vr]
    roleRef := { apiGroup := rbacGroupName, kind := "Role", name := ROLE_NAME }
    subjects := [{ kind := "ServiceAccount", name := SERVICE_ACCOUNT_NAME }] }

/-- ensureVirtualRouterNamespace from config.go: get; non-NotFound get error
is returned; NotFound leads to a create with the controlling owner
reference; a create error is returned; an existing object is left alone. -/
def ensureVirtualRouterNamespace (c : Cluster) (newNS : String) (vr : VirtualRouter) : EnsureOut :=
  if hasGetError c (.kNamespace, "", newNS) then
    { cluster := c, writes := [], err := some "get namespace error" }
  else if nsExists c newNS then
    { cluster := c, writes := [], err := none }
  else if hasCreateError c (.kNamespace, "", newNS) then
    { cluster := c, writes := [.createNamespace (newNamespaceObj newNS vr)],
      err := some "create namespace error" }
  else
    { cluster := { c with namespaces := c.namespaces ++ [newNamespaceObj newNS vr] },
      writes := [.createNamespace (newNamespaceObj newNS vr)], err := none }

/-- ensureVirtualRouterSA from config.go. -/
def ensureVirtualRouterSA (c : Cluster) (newNS : String) (vr : VirtualRouter) : EnsureOut :=
  if hasGetError c (.kServiceAccount, newNS, SERVICE_ACCOUNT_NAME) then
    { cluster := c, writes := [], err := some "get serviceaccount error" }
  else if saExists c newNS then
    { cluster := c, writes := [], err := none }
  else if hasCreateError c (.kServiceAccount, newNS, SERVICE_ACCOUNT_NAME) then
    { cluster := c, writes := [.createServiceAccount (newServiceAccount newNS vr)],
      err := some "create serviceaccount error" }
  else
    { cluster := { c with serviceAccounts := c.serviceAccounts ++ [newServiceAccount newNS vr] },
      writes := [.createServiceAccount (newServiceAccount newNS vr)], err := none }

/-- ensureVirtualRouterRole from config.go. -/
def ensureVirtualRouterRole (c : Cluster) (newNS : String) (vr : VirtualRouter) : EnsureOut :=
  if hasGetError c (.kRole, newNS, ROLE_NAME) then
    { cluster := c, writes := [], err := some "get role error" }
  else if roleExists c newNS then
    { cluster := c, writes := [], err := none }
  else if hasCreateError c (.kRole, newNS, ROLE_NAME) then
    { cluster := c, writes := [.createRole (newRole newNS vr)],
      err := some "create role error" }
  else
    { cluster := { c with roles := c.roles ++ [newRole newNS vr] },
      writes := [.createRole (newRole newNS vr)], err := none }

/-- ensureVirtualRouterRoleBinding from config.go. -/
def ensureVirtualRouterRoleBinding (c : Cluster) (newNS : String) (vr : VirtualRouter) : EnsureOut :=
  if hasGetError c (.kRoleBinding, newNS, ROLE_BINDING_NAME) then
    { cluster := c, writes := [], err := some "get rolebinding error" }
  else if rbExists c newNS then
    { cluster := c, writes := [], err := none }
  else if hasCreateError c (.kRoleBinding, newNS, ROLE_BINDING_NAME) then
    { cluster := c, writes := [.createRoleBinding (newRoleBinding newNS vr)],
      err := some "create rolebinding error" }
  else
    { cluster := { c with roleBindings := c.roleBindings ++ [newRoleBinding newNS vr] },
      writes := [.createRoleBinding (newRoleBinding newNS vr)], err := none }

/-- Sequencing of ensure steps: a previous error short-circuits, otherwise
the next step runs on the updated cluster and the write traces append. -/
def seqEnsure (o : EnsureOut) (f : Cluster → EnsureOut) : EnsureOut :=
  match o.err with
  | some e => { cluster := o.cluster, writes := o.writes, err := some e }
  | none =>
    let o2 := f o.cluster
    { cluster := o2.cluster, writes := o.writes ++ o2.writes, err := o2.err }

/-- The ensure sequence of syncHandler, in source order: namespace, service
account, role, role binding. -/
def ensureAll (c : Cluster) (newNS : String) (vr : VirtualRouter) : EnsureOut :=
  seqEnsure (seqEnsure (seqEnsure (ensureVirtualRouterNamespace c newNS vr)
    (fun c2 => ensureVirtualRouterSA c2 newNS vr))
    (fun c2 => ensureVirtualRouterRole c2 newNS vr))
    (fun c2 => ensureVirtualRouterRoleBinding c2 newNS vr)

/-- Splitting a character list at every slash, the semantics of Go's
strings.Split with separator "/". -/
def splitOnSlash : List Char → List (List Char)
  | [] => [[]]
  | ch :: rest =>
    let r := splitOnSlash rest
    if ch == '/' then [] :: r
    else
      match r with
      | [] => [[ch]]
      | g :: gs => (ch :: g) :: gs

/-- cache.SplitMetaNamespaceKey (client-go, outside src/): one segment means
cluster-scoped (empty namespace), two segments mean namespace/name, anything
else is an error. -/
def splitMetaNamespaceKey (key : String) : Option (String × String) :=
  match (splitOnSlash key.toList).map (fun g => String.mk g) with
  | [name] => some ("", name)
  | [ns, name] => some (ns, name)
  | _ => none

/-- updateVirtualRouterStatus from config.go, as the pure copy step: deep
copy the cached object and set only Status.AvailableReplicas from the
deployment's observed value. -/
def updateVirtualRouterStatus (vr : VirtualRouter) (d : Deployment) : VirtualRouter :=
  { vr with status := { availableReplicas := d.status.availableReplicas } }

/-- Replace the stored VirtualRouter with the given one (store-side effect
of a successful Update call on the VirtualRouter). -/
def updateVRInCluster (c : Cluster) (vr : VirtualRouter) : Cluster :=
  { c with virtualRouters :=
      c.virtualRouters.map (fun x => if x.ns == vr.ns && x.name == vr.name then vr else x) }

/-- Replace the stored Deployment with the given one (store-side effect of
a successful Update call on a Deployment). -/
def replaceDeployment (c : Cluster) (d : Deployment) : Cluster :=
  { c with deployments :=
      c.deployments.map (fun x => if x.ns == d.ns && x.name == d.name then d else x) }

/-- Final phase of syncHandler: updateVirtualRouterStatus issues the
VirtualRouter Update write unconditionally; on success the Synced event is
recorded. -/
def syncStatusPhase (c : Cluster) (vr : VirtualRouter) (d : Deployment)
    (writes : List WriteCall) : SyncOutcome :=
  let vrCopy := updateVirtualRouterStatus vr d
  if hasUpdateError c (.kVirtualRouter, vr.ns, vr.name) then
    { res := .errored "update virtualrouter error"
      writes := writes ++ [.updateVirtualRouter vrCopy]
      events := []
      cluster := c }
  else
    { res := .ok
      writes := writes ++ [.updateVirtualRouter vrCopy]
      events := [{ etype := .normal, reason := SuccessSynced, message := MessageResourceSynced }]
      cluster := updateVRInCluster c vrCopy }

/-- Replica comparison phase of syncHandler: if the intent specifies a
replica count different from the deployment's, one Update call projecting
the fresh desired state is issued.  Dereferencing the deployment's nil
replicas pointer is the panicked outcome. -/
def syncReplicasPhase (c : Cluster) (newNS : String) (vr : VirtualRouter) (d : Deployment)
    (writes : List WriteCall) : SyncOutcome :=
  match vr.spec.replicas with
  | none => syncStatusPhase c vr d writes
  | some r =>
    match d.spec.replicas with
    | none => { res := .panicked, writes := writes, events := [], cluster := c }
    | some dr =>
      if r != dr then
        let d2 := newDeployment newNS vr
        if hasUpdateError c (.kDeployment, newNS, vr.spec.deploymentName) then
          { res := .errored "update deployment error"
            writes := writes ++ [.updateDeployment d2]
            events := []
            cluster := c }
        else
          syncStatusPhase (replaceDeployment c d2) vr d2 (writes ++ [.updateDeployment d2])
      else
        syncStatusPhase c vr d writes

/-- Ownership check phase of syncHandler: a deployment not controlled by
this VirtualRouter aborts with a warning event and a non-nil error. -/
def syncOwnershipPhase (c : Cluster) (newNS : String) (vr : VirtualRouter) (d : Deployment)
    (writes : List WriteCall) : SyncOutcome :=
  if !(isControlledBy d vr) then
    { res := .errored (MessageResourceExists d.name)
      writes := writes
      events := [{ etype := .warning, reason := ErrResourceExists,
                   message := MessageResourceExists d.name }]
      cluster := c }
  else
    syncReplicasPhase c newNS vr d writes

/-- Deployment fetch phase of syncHandler: lister get; NotFound leads to a
Create of the projected desired state. -/
def syncDeploymentPhase (c : Cluster) (newNS : String) (vr : VirtualRouter)
    (writes : List WriteCall) : SyncOutcome :=
  match getDeployment c newNS vr.spec.deploymentName with
  | none =>
    if hasCreateError c (.kDeployment, newNS, vr.spec.deploymentName) then
      { res := .errored "create deployment error"
        writes := writes ++ [.createDeployment (newDeployment newNS vr)]
        events := []
        cluster := c }
    else
      let d := newDeployment newNS vr
      syncOwnershipPhase { c with deployments := c.deployments ++ [d] } newNS vr d
        (writes ++ [.createDeployment d])
  | some d => syncOwnershipPhase c newNS vr d writes

/-- syncHandler from config.go: parse the key, read the intent object,
validate deploymentName, ensure the supporting objects in the private
namespace named after the VirtualRouter, converge the managed deployment
and write back the status. -/
def syncHandler (c : Cluster) (key : String) : SyncOutcome :=
  match splitMetaNamespaceKey key with
  | none => { res := .ok, writes := [], events := [], cluster := c }
  | some (ns, name) =>
    match getVR c ns name with
    | none => { res := .ok, writes := [], events := [], cluster := c }
    | some vr =>
      if vr.spec.deploymentName == "" then
        { res := .ok, writes := [], events := [], cluster := c }
      else
        let newNS := vr.name
        let eo := ensureAll c newNS vr
        match eo.err with
        | some e => { res := .errored e, writes := eo.writes, events := [], cluster := eo.cluster }
        | none => syncDeploymentPhase eo.cluster newNS vr eo.writes

/-- cache.MetaNamespaceKeyFunc: namespace/name, or just the name for an
empty namespace. -/
def metaNamespaceKeyFunc (ns name : String) : String :=
  if ns == "" then name else ns ++ "/" ++ name

/-- The work-queue key of a VirtualRouter. -/
def vrKey (vr : VirtualRouter) : String :=
  metaNamespaceKeyFunc vr.ns vr.name

/-- enqueueVirtualRouter from config.go: the keys added to the work queue
(always exactly the object's own key). -/
def enqueueVirtualRouter (vr : VirtualRouter) : List String :=
  [vrKey vr]

/-- The UpdateFunc registered on the VirtualRouter informer in
NewController: it enqueues the new object unconditionally. -/
def virtualRouterUpdateHandler (_oldVR newVR : VirtualRouter) : List String :=
  enqueueVirtualRouter newVR

/-- handleObject from config.go, on a Deployment: follow the controlling
owner reference of kind VirtualRouter, resolve the owner in the object's
namespace and enqueue its key; otherwise drop the event. -/
def handleObject (c : Cluster) (d : Deployment) : List String :=
  match getControllerOf d.ownerReferences with
  | some ownerRef =>
    if ownerRef.kind != "VirtualRouter" then []
    else
      match getVR c d.ns ownerRef.name with
      | none => []
      | some vr => enqueueVirtualRouter vr
  | none => []

/-- The UpdateFunc registered on the Deployment informer in NewController:
identical resource versions suppress the event, otherwise handleObject
routes it. -/
def deploymentUpdateHandler (c : Cluster) (oldD newD : Deployment) : List String :=
  if newD.resourceVersion == oldD.resourceVersion then []
  else handleObject c newD

/-- An item popped from the work queue: the expected string key, or a value
of an unexpected type. -/
inductive WorkItem where
  | strItem (s : String)
  | invalidItem
deriving DecidableEq, Repr, BEq

/-- The result of workqueue.Get: an item, or the shutdown indicator. -/
inductive GetResult where
  | queueShutDown
  | item (w : WorkItem)
deriving DecidableEq, Repr, BEq

/-- Work-queue calls made by processNextWorkItem after Get. -/
inductive QueueOp where
  | doneOp (w : WorkItem)
  | forgetOp (w : WorkItem)
  | addRateLimitedOp (key : String)
deriving DecidableEq, Repr, BEq

/-- processNextWorkItem from config.go, given the Get result and the value
syncHandler returned for a key (none models a nil error).  It returns
whether the worker loop continues, and the queue calls issued in order
(Done is deferred and therefore last). -/
def processNextWorkItem (g : GetResult) (syncRes : String → Option String) :
    Bool × List QueueOp :=
  match g with
  | .queueShutDown => (false, [])
  | .item .invalidItem => (true, [.forgetOp .invalidItem, .doneOp .invalidItem])
  | .item (.strItem key) =>
    match syncRes key with
    | some _ => (true, [.addRateLimitedOp key, .doneOp (.strItem key)])
    | none => (true, [.forgetOp (.strItem key), .doneOp (.strItem key)])

/-- The cluster with no objects and no injected store errors. -/
def emptyCluster : Cluster :=
  { virtualRouters := [], deployments := [], namespaces := [], serviceAccounts := []
    roles := [], roleBindings := [], getErrors := [], createErrors := [], updateErrors := [] }

/-- A user-side write of the intent object: replace the VirtualRouter with
the same namespace and name, or add it. -/
def upsertVR (c : Cluster) (vr : VirtualRouter) : Cluster :=
  if c.virtualRouters.any (fun x => x.ns == vr.ns && x.name == vr.name) then
    updateVRInCluster c vr
  else
    { c with virtualRouters := c.virtualRouters ++ [vr] }

/-- Cluster states reachable from the empty cluster through user edits of
intent objects and controller sync invocations. -/
inductive Reachable : Cluster → Prop where
  | init : Reachable emptyCluster
  | userUpsertVR (c : Cluster) (vr : VirtualRouter) :
      Reachable c → Reachable (upsertVR c vr)
  | controllerSync (c : Cluster) (key : String) :
      Reachable c → Reachable (syncHandler c key).cluster

/-- Whether a write call targets one of the four supporting objects. -/
def isSupportWrite : WriteCall → Bool
  | .createNamespace _ => true
  | .createServiceAccount _ => true
  | .createRole _ => true
  | .createRoleBinding _ => true
  | _ => false

/-- Whether a write call targets the managed Deployment. -/
def isDeploymentWrite : WriteCall → Bool
  | .createDeployment _ => true
  | .updateDeployment _ => true
  | _ => false

/-- Spec-side description (spec section 4.4 and step 5 of the sync
contract) of the supporting-object writes of one sync: for each of
namespace, service account, role and role binding in that order, exactly
one create carrying the controlling owner linkage when the object is
absent, and no write when it exists. -/
def specSupportWrites (c : Cluster) (newNS : String) (vr : VirtualRouter) : List WriteCall :=
  (if nsExists c newNS then [] else [.createNamespace (newNamespaceObj newNS vr)]) ++
  (if saExists c newNS then [] else [.createServiceAccount (newServiceAccount newNS vr)]) ++
  (if roleExists c newNS then [] else [.createRole (newRole newNS vr)]) ++
  (if rbExists c newNS then [] else [.createRoleBinding (newRoleBinding newNS vr)])

/-- Whether some supporting-object get or create call fails with a
non-NotFound error during the ensure sequence (create calls only run for
absent objects). -/
def supportAborts (c : Cluster) (n : String) : Bool :=
  (hasGetError c (.kNamespace, "", n) ||
    (!nsExists c n && hasCreateError c (.kNamespace, "", n))) ||
  (hasGetError c (.kServiceAccount, n, SERVICE_ACCOUNT_NAME) ||
    (!saExists c n && hasCreateError c (.kServiceAccount, n, SERVICE_ACCOUNT_NAME))) ||
  (hasGetError c (.kRole, n, ROLE_NAME) ||
    (!roleExists c n && hasCreateError c (.kRole, n, ROLE_NAME))) ||
  (hasGetError c (.kRoleBinding, n, ROLE_BINDING_NAME) ||
    (!rbExists c n && hasCreateError c (.kRoleBinding, n, ROLE_BINDING_NAME)))

/-- Whether the intent's replica count (if any) agrees with the
deployment's desired replica count. -/
def replicasConverged (vr : VirtualRouter) (d : Deployment) : Bool :=
  match vr.spec.replicas with
  | none => true
  | some r => d.spec.replicas == some r

example : splitMetaNamespaceKey "default/r1" = some ("default", "r1") := by decide

example : splitMetaNamespaceKey "a/b/c" = none := by decide

lemma hasGetError_mk (vs ds nss sas rs rbs ge ce ue : _) (k : ErrKey) :
    hasGetError (Cluster.mk vs ds nss sas rs rbs ge ce ue) k = ge.contains k := rfl

lemma hasCreateError_mk (vs ds nss sas rs rbs ge ce ue : _) (k : ErrKey) :
    hasCreateError (Cluster.mk vs ds nss sas rs rbs ge ce ue) k = ce.contains k := rfl

lemma nsExists_mk (vs ds nss sas rs rbs ge ce ue : _) (n : String) :
    nsExists (Cluster.mk vs ds nss sas rs rbs ge ce ue) n = nss.any (fun x => x.name == n) := rfl

lemma saExists_mk (vs ds nss sas rs rbs ge ce ue : _) (n : String) :
    saExists (Cluster.mk vs ds nss sas rs rbs ge ce ue) n
      = sas.any (fun s => s.ns == n && s.name == SERVICE_ACCOUNT_NAME) := rfl

lemma roleExists_mk (vs ds nss sas rs rbs ge ce ue : _) (n : String) :
    roleExists (Cluster.mk vs ds nss sas rs rbs ge ce ue) n
      = rs.any (fun r => r.ns == n && r.name == ROLE_NAME) := rfl

lemma rbExists_mk (vs ds nss sas rs rbs ge ce ue : _) (n : String) :
    rbExists (Cluster.mk vs ds nss sas rs rbs ge ce ue) n
      = rbs.any (fun r => r.ns == n && r.name == ROLE_BINDING_NAME) := rfl

lemma ensureNS_noop (vs ds nss sas rs rbs ge ce ue : _) (n : String) (vr : VirtualRouter)
    (h1 : ge.contains ((.kNamespace, "", n) : ErrKey) = false)
    (h2 : nss.any (fun x => x.name == n) = true) :
    ensureVirtualRouterNamespace (Cluster.mk vs ds nss sas rs rbs ge ce ue) n vr
      = { cluster := Cluster.mk vs ds nss sas rs rbs ge ce ue, writes := [], err := none } := by
  simp only [ensureVirtualRouterNamespace, hasGetError_mk, nsExists_mk, h1, h2,
    Bool.false_eq_true, if_false, if_true]

lemma ensureNS_create (vs ds nss sas rs rbs ge ce ue : _) (n : String) (vr : VirtualRouter)
    (h1 : ge.contains ((.kNamespace, "", n) : ErrKey) = false)
    (h2 : nss.any (fun x => x.name == n) = false)
    (h3 : ce.contains ((.kNamespace, "", n) : ErrKey) = false) :
    ensureVirtualRouterNamespace (Cluster.mk vs ds nss sas rs rbs ge ce ue) n vr
      = { cluster := Cluster.mk vs ds (nss ++ [newNamespaceObj n vr]) sas rs rbs ge ce ue,
          writes := [.createNamespace (newNamespaceObj n vr)], err := none } := by
  simp only [ensureVirtualRouterNamespace, hasGetError_mk, hasCreateError_mk, nsExists_mk,
    h1, h2, h3, Bool.false_eq_true, if_false, if_true]

lemma ensureSA_noop (vs ds nss sas rs rbs ge ce ue : _) (n : String) (vr : VirtualRouter)
    (h1 : ge.contains ((.kServiceAccount, n, SERVICE_ACCOUNT_NAME) : ErrKey) = false)
    (h2 : sas.any (fun s => s.ns == n && s.name == SERVICE_ACCOUNT_NAME) = true) :
    ensureVirtualRouterSA (Cluster.mk vs ds nss sas rs rbs ge ce ue) n vr
      = { cluster := Cluster.mk vs ds nss sas rs rbs ge ce ue, writes := [], err := none } := by
  simp only [ensureVirtualRouterSA, hasGetError_mk, saExists_mk, h1, h2,
    Bool.false_eq_true, if_false, if_true]

lemma ensureSA_create (vs ds nss sas rs rbs ge ce ue : _) (n : String) (vr : VirtualRouter)
    (h1 : ge.contains ((.kServiceAccount, n, SERVICE_ACCOUNT_NAME) : ErrKey) = false)
    (h2 : sas.any (fun s => s.ns == n && s.name == SERVICE_ACCOUNT_NAME) = false)
    (h3 : ce.contains ((.kServiceAccount, n, SERVICE_ACCOUNT_NAME) : ErrKey) = false) :
    ensureVirtualRouterSA (Cluster.mk vs ds nss sas rs rbs ge ce ue) n vr
      = { cluster := Cluster.mk vs ds nss (sas ++ [newServiceAccount n vr]) rs rbs ge ce ue,
          writes := [.createServiceAccount (newServiceAccount n vr)], err := none } := by
  simp only [ensureVirtualRouterSA, hasGetError_mk, hasCreateError_mk, saExists_mk,
    h1, h2, h3, Bool.false_eq_true, if_false, if_true]

lemma ensureRole_noop (vs ds nss sas rs rbs ge ce ue : _) (n : String) (vr : VirtualRouter)
    (h1 : ge.contains ((.kRole, n, ROLE_NAME) : ErrKey) = false)
    (h2 : rs.any (fun r => r.ns == n && r.name == ROLE_NAME) = true) :
    ensureVirtualRouterRole (Cluster.mk vs ds nss sas rs rbs ge ce ue) n vr
      = { cluster := Cluster.mk vs ds nss sas rs rbs ge ce ue, writes := [], err := none } := by
  simp only [ensureVirtualRouterRole, hasGetError_mk, roleExists_mk, h1, h2,
    Bool.false_eq_true, if_false, if_true]

lemma ensureRole_create (vs ds nss sas rs rbs ge ce ue : _) (n : String) (vr : VirtualRouter)
    (h1 : ge.contains ((.kRole, n, ROLE_NAME) : ErrKey) = false)
    (h2 : rs.any (fun r => r.ns == n && r.name == ROLE_NAME) = false)
    (h3 : ce.contains ((.kRole, n, ROLE_NAME) : ErrKey) = false) :
    ensureVirtualRouterRole (Cluster.mk vs ds nss sas rs rbs ge ce ue) n vr
      = { cluster := Cluster.mk vs ds nss sas (rs ++ [newRole n vr]) rbs ge ce ue,
          writes := [.createRole (newRole n vr)], err := none } := by
  simp only [ensureVirtualRouterRole, hasGetError_mk, hasCreateError_mk, roleExists_mk,
    h1, h2, h3, Bool.false_eq_true, if_false, if_true]

lemma ensureRB_noop (vs ds nss sas rs rbs ge ce ue : _) (n : String) (vr : VirtualRouter)
    (h1 : ge.contains ((.kRoleBinding, n, ROLE_BINDING_NAME) : ErrKey) = false)
    (h2 : rbs.any (fun r => r.ns == n && r.name == ROLE_BINDING_NAME) = true) :
    ensureVirtualRouterRoleBinding (Cluster.mk vs ds nss sas rs rbs ge ce ue) n vr
      = { cluster := Cluster.mk vs ds nss sas rs rbs ge ce ue, writes := [], err := none } := by
  simp only [ensureVirtualRouterRoleBinding, hasGetError_mk, rbExists_mk, h1, h2,
    Bool.false_eq_true, if_false, if_true]

lemma ensureRB_create (vs ds nss sas rs rbs ge ce ue : _) (n : String) (vr : VirtualRouter)
    (h1 : ge.contains ((.kRoleBinding, n, ROLE_BINDING_NAME) : ErrKey) = false)
    (h2 : rbs.any (fun r => r.ns == n && r.name == ROLE_BINDING_NAME) = false)
    (h3 : ce.contains ((.kRoleBinding, n, ROLE_BINDING_NAME) : ErrKey) = false) :
    ensureVirtualRouterRoleBinding (Cluster.mk vs ds nss sas rs rbs ge ce ue) n vr
      = { cluster := Cluster.mk vs ds nss sas rs (rbs ++ [newRoleBinding n vr]) ge ce ue,
          writes := [.createRoleBinding (newRoleBinding n vr)], err := none } := by
  simp only [ensureVirtualRouterRoleBinding, hasGetError_mk, hasCreateError_mk, rbExists_mk,
    h1, h2, h3, Bool.false_eq_true, if_false, if_true]

lemma ensureAll_noop (c : Cluster) (n : String) (vr : VirtualRouter)
    (h1 : hasGetError c (.kNamespace, "", n) = false)
    (h2 : hasGetError c (.kServiceAccount, n, SERVICE_ACCOUNT_NAME) = false)
    (h3 : hasGetError c (.kRole, n, ROLE_NAME) = false)
    (h4 : hasGetError c (.kRoleBinding, n, ROLE_BINDING_NAME) = false)
    (e1 : nsExists c n = true) (e2 : saExists c n = true)
    (e3 : roleExists c n = true) (e4 : rbExists c n = true) :
    ensureAll c n vr = { cluster := c, writes := [], err := none } := by
  simp [ensureAll, seqEnsure, ensureVirtualRouterNamespace, ensureVirtualRouterSA,
    ensureVirtualRouterRole, ensureVirtualRouterRoleBinding, h1, h2, h3, h4, e1, e2, e3, e4]

lemma ensureAll_noErrors (c : Cluster) (n : String) (vr : VirtualRouter)
    (h1 : hasGetError c (.kNamespace, "", n) = false)
    (h2 : hasGetError c (.kServiceAccount, n, SERVICE_ACCOUNT_NAME) = false)
    (h3 : hasGetError c (.kRole, n, ROLE_NAME) = false)
    (h4 : hasGetError c (.kRoleBinding, n, ROLE_BINDING_NAME) = false)
    (h5 : hasCreateError c (.kNamespace, "", n) = false)
    (h6 : hasCreateError c (.kServiceAccount, n, SERVICE_ACCOUNT_NAME) = false)
    (h7 : hasCreateError c (.kRole, n, ROLE_NAME) = false)
    (h8 : hasCreateError c (.kRoleBinding, n, ROLE_BINDING_NAME) = false) :
    (ensureAll c n vr).err = none ∧
    (ensureAll c n vr).writes = specSupportWrites c n vr ∧
    (ensureAll c n vr).cluster.virtualRouters = c.virtualRouters ∧
    (ensureAll c n vr).cluster.deployments = c.deployments ∧
    (ensureAll c n vr).cluster.getErrors = c.getErrors ∧
    (ensureAll c n vr).cluster.createErrors = c.createErrors ∧
    (ensureAll c n vr).cluster.updateErrors = c.updateErrors := by
  obtain ⟨vs, ds, nss, sas, rs, rbs, ge, ce, ue⟩ := c
  rw [hasGetError_mk] at h1 h2 h3 h4
  rw [hasCreateError_mk] at h5 h6 h7 h8
  rcases Bool.eq_false_or_eq_true (nss.any (fun x => x.name == n)) with e1 | e1 <;>
    rcases Bool.eq_false_or_eq_true
      (sas.any (fun s => s.ns == n && s.name == SERVICE_ACCOUNT_NAME)) with e2 | e2 <;>
    rcases Bool.eq_false_or_eq_true
      (rs.any (fun r => r.ns == n && r.name == ROLE_NAME)) with e3 | e3 <;>
    rcases Bool.eq_false_or_eq_true
      (rbs.any (fun r => r.ns == n && r.name == ROLE_BINDING_NAME)) with e4 | e4 <;>
    simp only [ensureAll, seqEnsure, specSupportWrites,
      ensureNS_noop, ensureNS_create, ensureSA_noop, ensureSA_create,
      ensureRole_noop, ensureRole_create, ensureRB_noop, ensureRB_create,
      h1, h2, h3, h4, h5, h6, h7, h8, e1, e2, e3, e4,
      nsExists_mk, saExists_mk, roleExists_mk, rbExists_mk,
      Bool.false_eq_true, if_false, if_true] <;>
    simp

lemma ensureNS_err (c : Cluster) (n : String) (vr : VirtualRouter) :
    (ensureVirtualRouterNamespace c n vr).err.isSome
      = (hasGetError c (.kNamespace, "", n) ||
          (!nsExists c n && hasCreateError c (.kNamespace, "", n))) := by
  rcases Bool.eq_false_or_eq_true (hasGetError c (.kNamespace, "", n)) with g | g <;>
    rcases Bool.eq_false_or_eq_true (nsExists c n) with e | e <;>
    rcases Bool.eq_false_or_eq_true (hasCreateError c (.kNamespace, "", n)) with ce | ce <;>
    simp [ensureVirtualRouterNamespace, g, e, ce]

lemma ensureSA_err (c : Cluster) (n : String) (vr : VirtualRouter) :
    (ensureVirtualRouterSA c n vr).err.isSome
      = (hasGetError c (.kServiceAccount, n, SERVICE_ACCOUNT_NAME) ||
          (!saExists c n && hasCreateError c (.kServiceAccount, n, SERVICE_ACCOUNT_NAME))) := by
  rcases Bool.eq_false_or_eq_true (hasGetError c (.kServiceAccount, n, SERVICE_ACCOUNT_NAME)) with g | g <;>
    rcases Bool.eq_false_or_eq_true (saExists c n) with e | e <;>
    rcases Bool.eq_false_or_eq_true (hasCreateError c (.kServiceAccount, n, SERVICE_ACCOUNT_NAME)) with ce | ce <;>
    simp [ensureVirtualRouterSA, g, e, ce]

lemma ensureRole_err (c : Cluster) (n : String) (vr : VirtualRouter) :
    (ensureVirtualRouterRole c n vr).err.isSome
      = (hasGetError c (.kRole, n, ROLE_NAME) ||
          (!roleExists c n && hasCreateError c (.kRole, n, ROLE_NAME))) := by
  rcases Bool.eq_false_or_eq_true (hasGetError c (.kRole, n, ROLE_NAME)) with g | g <;>
    rcases Bool.eq_false_or_eq_true (roleExists c n) with e | e <;>
    rcases Bool.eq_false_or_eq_true (hasCreateError c (.kRole, n, ROLE_NAME)) with ce | ce <;>
    simp [ensureVirtualRouterRole, g, e, ce]

lemma ensureRB_err (c : Cluster) (n : String) (vr : VirtualRouter) :
    (ensureVirtualRouterRoleBinding c n vr).err.isSome
      = (hasGetError c (.kRoleBinding, n, ROLE_BINDING_NAME) ||
          (!rbExists c n && hasCreateError c (.kRoleBinding, n, ROLE_BINDING_NAME))) := by
  rcases Bool.eq_false_or_eq_true (hasGetError c (.kRoleBinding, n, ROLE_BINDING_NAME)) with g | g <;>
    rcases Bool.eq_false_or_eq_true (rbExists c n) with e | e <;>
    rcases Bool.eq_false_or_eq_true (hasCreateError c (.kRoleBinding, n, ROLE_BINDING_NAME)) with ce | ce <;>
    simp [ensureVirtualRouterRoleBinding, g, e, ce]

lemma ensureNS_stable_hasGetError (c : Cluster) (n : String) (vr : VirtualRouter) (k : ErrKey) :
    hasGetError (ensureVirtualRouterNamespace c n vr).cluster k = hasGetError c k := by
  unfold ensureVirtualRouterNamespace
  repeat' split
  all_goals rfl

lemma ensureNS_stable_hasCreateError (c : Cluster) (n : String) (vr : VirtualRouter) (k : ErrKey) :
    hasCreateError (ensureVirtualRouterNamespace c n vr).cluster k = hasCreateError c k := by
  unfold ensureVirtualRouterNamespace
  repeat' split
  all_goals rfl

lemma ensureNS_stable_saExists (c : Cluster) (n : String) (vr : VirtualRouter) (m : String) :
    saExists (ensureVirtualRouterNamespace c n vr).cluster m = saExists c m := by
  unfold ensureVirtualRouterNamespace
  repeat' split
  all_goals rfl

lemma ensureNS_stable_roleExists (c : Cluster) (n : String) (vr : VirtualRouter) (m : String) :
    roleExists (ensureVirtualRouterNamespace c n vr).cluster m = roleExists c m := by
  unfold ensureVirtualRouterNamespace
  repeat' split
  all_goals rfl

lemma ensureNS_stable_rbExists (c : Cluster) (n : String) (vr : VirtualRouter) (m : String) :
    rbExists (ensureVirtualRouterNamespace c n vr).cluster m = rbExists c m := by
  unfold ensureVirtualRouterNamespace
  repeat' split
  all_goals rfl

lemma ensureNS_stable_deployments (c : Cluster) (n : String) (vr : VirtualRouter) :
    (ensureVirtualRouterNamespace c n vr).cluster.deployments = c.deployments := by
  unfold ensureVirtualRouterNamespace
  repeat' split
  all_goals rfl

lemma ensureSA_stable_hasGetError (c : Cluster) (n : String) (vr : VirtualRouter) (k : ErrKey) :
    hasGetError (ensureVirtualRouterSA c n vr).cluster k = hasGetError c k := by
  unfold ensureVirtualRouterSA
  repeat' split
  all_goals rfl

lemma ensureSA_stable_hasCreateError (c : Cluster) (n : String) (vr : VirtualRouter) (k : ErrKey) :
    hasCreateError (ensureVirtualRouterSA c n vr).cluster k = hasCreateError c k := by
  unfold ensureVirtualRouterSA
  repeat' split
  all_goals rfl

lemma ensureSA_stable_roleExists (c : Cluster) (n : String) (vr : VirtualRouter) (m : String) :
    roleExists (ensureVirtualRouterSA c n vr).cluster m = roleExists c m := by
  unfold ensureVirtualRouterSA
  repeat' split
  all_goals rfl

lemma ensureSA_stable_rbExists (c : Cluster) (n : String) (vr : VirtualRouter) (m : String) :
    rbExists (ensureVirtualRouterSA c n vr).cluster m = rbExists c m := by
  unfold ensureVirtualRouterSA
  repeat' split
  all_goals rfl

lemma ensureSA_stable_deployments (c : Cluster) (n : String) (vr : VirtualRouter) :
    (ensureVirtualRouterSA c n vr).cluster.deployments = c.deployments := by
  unfold ensureVirtualRouterSA
  repeat' split
  all_goals rfl

lemma ensureRole_stable_hasGetError (c : Cluster) (n : String) (vr : VirtualRouter) (k : ErrKey) :
    hasGetError (ensureVirtualRouterRole c n vr).cluster k = hasGetError c k := by
  unfold ensureVirtualRouterRole
  repeat' split
  all_goals rfl

lemma ensureRole_stable_hasCreateError (c : Cluster) (n : String) (vr : VirtualRouter) (k : ErrKey) :
    hasCreateError (ensureVirtualRouterRole c n vr).cluster k = hasCreateError c k := by
  unfold ensureVirtualRouterRole
  repeat' split
  all_goals rfl

lemma ensureRole_stable_rbExists (c : Cluster) (n : String) (vr : VirtualRouter) (m : String) :
    rbExists (ensureVirtualRouterRole c n vr).cluster m = rbExists c m := by
  unfold ensureVirtualRouterRole
  repeat' split
  all_goals rfl

lemma ensureRole_stable_deployments (c : Cluster) (n : String) (vr : VirtualRouter) :
    (ensureVirtualRouterRole c n vr).cluster.deployments = c.deployments := by
  unfold ensureVirtualRouterRole
  repeat' split
  all_goals rfl

lemma ensureRB_stable_deployments (c : Cluster) (n : String) (vr : VirtualRouter) :
    (ensureVirtualRouterRoleBinding c n vr).cluster.deployments = c.deployments := by
  unfold ensureVirtualRouterRoleBinding
  repeat' split
  all_goals rfl

lemma seqEnsure_err (o : EnsureOut) (f : Cluster → EnsureOut) :
    (seqEnsure o f).err.isSome = (o.err.isSome || (f o.cluster).err.isSome) := by
  unfold seqEnsure
  cases h : o.err <;> simp [h]

lemma seqEnsure_hasGetError (o : EnsureOut) (f : Cluster → EnsureOut) (k : ErrKey)
    (hf : ∀ c2, hasGetError (f c2).cluster k = hasGetError c2 k) :
    hasGetError (seqEnsure o f).cluster k = hasGetError o.cluster k := by
  unfold seqEnsure
  cases h : o.err <;> simp [h, hf]

lemma seqEnsure_hasCreateError (o : EnsureOut) (f : Cluster → EnsureOut) (k : ErrKey)
    (hf : ∀ c2, hasCreateError (f c2).cluster k = hasCreateError c2 k) :
    hasCreateError (seqEnsure o f).cluster k = hasCreateError o.cluster k := by
  unfold seqEnsure
  cases h : o.err <;> simp [h, hf]

lemma seqEnsure_roleExists (o : EnsureOut) (f : Cluster → EnsureOut) (m : String)
    (hf : ∀ c2, roleExists (f c2).cluster m = roleExists c2 m) :
    roleExists (seqEnsure o f).cluster m = roleExists o.cluster m := by
  unfold seqEnsure
  cases h : o.err <;> simp [h, hf]

lemma seqEnsure_rbExists (o : EnsureOut) (f : Cluster → EnsureOut) (m : String)
    (hf : ∀ c2, rbExists (f c2).cluster m = rbExists c2 m) :
    rbExists (seqEnsure o f).cluster m = rbExists o.cluster m := by
  unfold seqEnsure
  cases h : o.err <;> simp [h, hf]

lemma seqEnsure_deployments (o : EnsureOut) (f : Cluster → EnsureOut)
    (hf : ∀ c2, (f c2).cluster.deployments = c2.deployments) :
    (seqEnsure o f).cluster.deployments = o.cluster.deployments := by
  unfold seqEnsure
  cases h : o.err <;> simp [h, hf]

lemma seqNSSA_hasGetError (c : Cluster) (n : String) (vr : VirtualRouter) (k : ErrKey) :
    hasGetError (seqEnsure (ensureVirtualRouterNamespace c n vr)
      (fun c2 => ensureVirtualRouterSA c2 n vr)).cluster k = hasGetError c k := by
  rw [seqEnsure_hasGetError _ _ _ (fun c2 => ensureSA_stable_hasGetError c2 n vr k),
    ensureNS_stable_hasGetError]

lemma seqNSSA_hasCreateError (c : Cluster) (n : String) (vr : VirtualRouter) (k : ErrKey) :
    hasCreateError (seqEnsure (ensureVirtualRouterNamespace c n vr)
      (fun c2 => ensureVirtualRouterSA c2 n vr)).cluster k = hasCreateError c k := by
  rw [seqEnsure_hasCreateError _ _ _ (fun c2 => ensureSA_stable_hasCreateError c2 n vr k),
    ensureNS_stable_hasCreateError]

lemma seqNSSA_roleExists (c : Cluster) (n : String) (vr : VirtualRouter) (m : String) :
    roleExists (seqEnsure (ensureVirtualRouterNamespace c n vr)
      (fun c2 => ensureVirtualRouterSA c2 n vr)).cluster m = roleExists c m := by
  rw [seqEnsure_roleExists _ _ _ (fun c2 => ensureSA_stable_roleExists c2 n vr m),
    ensureNS_stable_roleExists]

lemma seqNSSARole_hasGetError (c : Cluster) (n : String) (vr : VirtualRouter) (k : ErrKey) :
    hasGetError (seqEnsure (seqEnsure (ensureVirtualRouterNamespace c n vr)
      (fun c2 => ensureVirtualRouterSA c2 n vr))
      (fun c2 => ensureVirtualRouterRole c2 n vr)).cluster k = hasGetError c k := by
  rw [seqEnsure_hasGetError _ _ _ (fun c2 => ensureRole_stable_hasGetError c2 n vr k),
    seqNSSA_hasGetError]

lemma seqNSSARole_hasCreateError (c : Cluster) (n : String) (vr : VirtualRouter) (k : ErrKey) :
    hasCreateError (seqEnsure (seqEnsure (ensureVirtualRouterNamespace c n vr)
      (fun c2 => ensureVirtualRouterSA c2 n vr))
      (fun c2 => ensureVirtualRouterRole c2 n vr)).cluster k = hasCreateError c k := by
  rw [seqEnsure_hasCreateError _ _ _ (fun c2 => ensureRole_stable_hasCreateError c2 n vr k),
    seqNSSA_hasCreateError]

lemma seqNSSARole_rbExists (c : Cluster) (n : String) (vr : VirtualRouter) (m : String) :
    rbExists (seqEnsure (seqEnsure (ensureVirtualRouterNamespace c n vr)
      (fun c2 => ensureVirtualRouterSA c2 n vr))
      (fun c2 => ensureVirtualRouterRole c2 n vr)).cluster m = rbExists c m := by
  rw [seqEnsure_rbExists _ _ _ (fun c2 => ensureRole_stable_rbExists c2 n vr m),
    seqEnsure_rbExists _ _ _ (fun c2 => ensureSA_stable_rbExists c2 n vr m),
    ensureNS_stable_rbExists]

lemma ensureAll_err_isSome (c : Cluster) (n : String) (vr : VirtualRouter) :
    (ensureAll c n vr).err.isSome = supportAborts c n := by
  unfold ensureAll
  simp only [seqEnsure_err]
  simp only [ensureNS_err, ensureSA_err, ensureRole_err, ensureRB_err]
  simp only [ensureNS_stable_hasGetError, ensureNS_stable_hasCreateError, ensureNS_stable_saExists,
    seqNSSA_hasGetError, seqNSSA_hasCreateError, seqNSSA_roleExists,
    seqNSSARole_hasGetError, seqNSSARole_hasCreateError, seqNSSARole_rbExists]
  simp [supportAborts, Bool.or_assoc]

lemma ensureAll_deployments (c : Cluster) (n : String) (vr : VirtualRouter) :
    (ensureAll c n vr).cluster.deployments = c.deployments := by
  unfold ensureAll
  rw [seqEnsure_deployments _ _ (fun c2 => ensureRB_stable_deployments c2 n vr),
    seqEnsure_deployments _ _ (fun c2 => ensureRole_stable_deployments c2 n vr),
    seqEnsure_deployments _ _ (fun c2 => ensureSA_stable_deployments c2 n vr),
    ensureNS_stable_deployments]

lemma seqEnsure_writes (o : EnsureOut) (f : Cluster → EnsureOut) (P : WriteCall → Bool)
    (ho : ∀ w ∈ o.writes, P w = true) (hf : ∀ c2 w, w ∈ (f c2).writes → P w = true) :
    ∀ w ∈ (seqEnsure o f).writes, P w = true := by
  unfold seqEnsure
  cases h : o.err with
  | some e => simpa [h] using ho
  | none =>
    intro w hw
    simp only [h, List.mem_append] at hw
    rcases hw with hw | hw
    · exact ho w hw
    · exact hf _ w hw

lemma ensureNS_writes (c : Cluster) (n : String) (vr : VirtualRouter) :
    ∀ w ∈ (ensureVirtualRouterNamespace c n vr).writes, isSupportWrite w = true := by
  unfold ensureVirtualRouterNamespace
  repeat' split
  all_goals intro w hw
  all_goals simp_all [isSupportWrite]

lemma ensureSA_writes (c : Cluster) (n : String) (vr : VirtualRouter) :
    ∀ w ∈ (ensureVirtualRouterSA c n vr).writes, isSupportWrite w = true := by
  unfold ensureVirtualRouterSA
  repeat' split
  all_goals intro w hw
  all_goals simp_all [isSupportWrite]

lemma ensureRole_writes (c : Cluster) (n : String) (vr : VirtualRouter) :
    ∀ w ∈ (ensureVirtualRouterRole c n vr).writes, isSupportWrite w = true := by
  unfold ensureVirtualRouterRole
  repeat' split
  all_goals intro w hw
  all_goals simp_all [isSupportWrite]

lemma ensureRB_writes (c : Cluster) (n : String) (vr : VirtualRouter) :
    ∀ w ∈ (ensureVirtualRouterRoleBinding c n vr).writes, isSupportWrite w = true := by
  unfold ensureVirtualRouterRoleBinding
  repeat' split
  all_goals intro w hw
  all_goals simp_all [isSupportWrite]

lemma ensureAll_writes_support (c : Cluster) (n : String) (vr : VirtualRouter) :
    ∀ w ∈ (ensureAll c n vr).writes, isSupportWrite w = true := by
  unfold ensureAll
  apply seqEnsure_writes
  · apply seqEnsure_writes
    · apply seqEnsure_writes
      · exact ensureNS_writes c n vr
      · exact fun c2 => ensureSA_writes c2 n vr
    · exact fun c2 => ensureRole_writes c2 n vr
  · exact fun c2 => ensureRB_writes c2 n vr

lemma newDeployment_replicas (n : String) (vr : VirtualRouter) :
    (newDeployment n vr).spec.replicas = vr.spec.replicas := rfl

lemma getDeployment_congr (c1 c2 : Cluster) (ns n : String)
    (h : c1.deployments = c2.deployments) : getDeployment c1 ns n = getDeployment c2 ns n := by
  unfold getDeployment
  rw [h]

lemma syncStatusPhase_ext (c : Cluster) (vr : VirtualRouter) (d : Deployment) (ws : List WriteCall) :
    ∃ ext, (syncStatusPhase c vr d ws).writes = ws ++ ext ∧ ∀ w ∈ ext, isSupportWrite w = false := by
  unfold syncStatusPhase
  split <;>
    exact ⟨[.updateVirtualRouter (updateVirtualRouterStatus vr d)], rfl, by simp [isSupportWrite]⟩

lemma syncStatusPhase_res (c : Cluster) (vr : VirtualRouter) (d : Deployment) (ws : List WriteCall) :
    (syncStatusPhase c vr d ws).res ≠ .panicked := by
  unfold syncStatusPhase
  split <;> simp

lemma syncStatusPhase_updVR (c : Cluster) (vr : VirtualRouter) (d : Deployment)
    (ws : List WriteCall) (u : VirtualRouter)
    (hws : ∀ x : VirtualRouter, WriteCall.updateVirtualRouter x ∉ ws)
    (h : WriteCall.updateVirtualRouter u ∈ (syncStatusPhase c vr d ws).writes) :
    u = updateVirtualRouterStatus vr d := by
  unfold syncStatusPhase at h
  split at h <;>
    simp only [List.mem_append, List.mem_singleton, WriteCall.updateVirtualRouter.injEq] at h <;>
    rcases h with h | h
  · exact absurd h (hws u)
  · exact h
  · exact absurd h (hws u)
  · exact h

lemma syncReplicasPhase_ext (c : Cluster) (n : String) (vr : VirtualRouter) (d : Deployment)
    (ws : List WriteCall) :
    ∃ ext, (syncReplicasPhase c n vr d ws).writes = ws ++ ext ∧
      ∀ w ∈ ext, isSupportWrite w = false := by
  unfold syncReplicasPhase
  rcases hr : vr.spec.replicas with _ | r
  · simp only [hr]
    exact syncStatusPhase_ext c vr d ws
  · simp only [hr]
    rcases hd : d.spec.replicas with _ | dr
    · simp only [hd]
      exact ⟨[], by simp, by simp⟩
    · simp only [hd]
      split
      · split
        · exact ⟨[.updateDeployment (newDeployment n vr)], rfl, by simp [isSupportWrite]⟩
        · obtain ⟨ext, he, hs⟩ := syncStatusPhase_ext (replaceDeployment c (newDeployment n vr))
            vr (newDeployment n vr) (ws ++ [.updateDeployment (newDeployment n vr)])
          refine ⟨.updateDeployment (newDeployment n vr) :: ext, ?_, ?_⟩
          · rw [he, List.append_assoc]
            rfl
          · intro w hw
            rcases List.mem_cons.mp hw with hw | hw
            · subst hw
              rfl
            · exact hs w hw
      · exact syncStatusPhase_ext c vr d ws

lemma syncReplicasPhase_res (c : Cluster) (n : String) (vr : VirtualRouter) (d : Deployment)
    (ws : List WriteCall) (h : vr.spec.replicas = none ∨ d.spec.replicas ≠ none) :
    (syncReplicasPhase c n vr d ws).res ≠ .panicked := by
  unfold syncReplicasPhase
  rcases hr : vr.spec.replicas with _ | r
  · simp only [hr]
    exact syncStatusPhase_res c vr d ws
  · simp only [hr]
    rcases hd : d.spec.replicas with _ | dr
    · rcases h with h | h
      · rw [hr] at h
        exact absurd h (Option.some_ne_none r)
      · exact absurd hd h
    · simp only [hd]
      split
      · split
        · simp
        · exact syncStatusPhase_res _ vr _ _
      · exact syncStatusPhase_res c vr d ws

lemma syncReplicasPhase_updVR (c : Cluster) (n : String) (vr : VirtualRouter) (d : Deployment)
    (ws : List WriteCall) (u : VirtualRouter)
    (hws : ∀ x : VirtualRouter, WriteCall.updateVirtualRouter x ∉ ws)
    (h : WriteCall.updateVirtualRouter u ∈ (syncReplicasPhase c n vr d ws).writes) :
    u = updateVirtualRouterStatus vr d ∨ u = updateVirtualRouterStatus vr (newDeployment n vr) := by
  unfold syncReplicasPhase at h
  rcases hr : vr.spec.replicas with _ | r
  · rw [hr] at h
    exact Or.inl (syncStatusPhase_updVR c vr d ws u hws h)
  · rw [hr] at h
    rcases hd : d.spec.replicas with _ | dr
    · rw [hd] at h
      exact absurd h (hws u)
    · rw [hd] at h
      simp only [] at h
      split at h
      · split at h
        · simp only [List.mem_append, List.mem_singleton] at h
          rcases h with h | h
          · exact absurd h (hws u)
          · exact absurd h (by simp)
        · refine Or.inr (syncStatusPhase_updVR _ vr _ _ u ?_ h)
          intro x hx
          simp only [List.mem_append, List.mem_singleton] at hx
          rcases hx with hx | hx
          · exact hws x hx
          · exact WriteCall.noConfusion hx
      · exact Or.inl (syncStatusPhase_updVR c vr d ws u hws h)

lemma syncOwnershipPhase_ext (c : Cluster) (n : String) (vr : VirtualRouter) (d : Deployment)
    (ws : List WriteCall) :
    ∃ ext, (syncOwnershipPhase c n vr d ws).writes = ws ++ ext ∧
      ∀ w ∈ ext, isSupportWrite w = false := by
  unfold syncOwnershipPhase
  split
  · exact ⟨[], by simp, by simp⟩
  · exact syncReplicasPhase_ext c n vr d ws

lemma syncOwnershipPhase_res (c : Cluster) (n : String) (vr : VirtualRouter) (d : Deployment)
    (ws : List WriteCall) (h : vr.spec.replicas = none ∨ d.spec.replicas ≠ none) :
    (syncOwnershipPhase c n vr d ws).res ≠ .panicked := by
  unfold syncOwnershipPhase
  split
  · simp
  · exact syncReplicasPhase_res c n vr d ws h

lemma syncOwnershipPhase_updVR (c : Cluster) (n : String) (vr : VirtualRouter) (d : Deployment)
    (ws : List WriteCall) (u : VirtualRouter)
    (hws : ∀ x : VirtualRouter, WriteCall.updateVirtualRouter x ∉ ws)
    (h : WriteCall.updateVirtualRouter u ∈ (syncOwnershipPhase c n vr d ws).writes) :
    u = updateVirtualRouterStatus vr d ∨ u = updateVirtualRouterStatus vr (newDeployment n vr) := by
  unfold syncOwnershipPhase at h
  split at h
  · exact absurd h (hws u)
  · exact syncReplicasPhase_updVR c n vr d ws u hws h

lemma syncDeploymentPhase_ext (c : Cluster) (n : String) (vr : VirtualRouter)
    (ws : List WriteCall) :
    ∃ ext, (syncDeploymentPhase c n vr ws).writes = ws ++ ext ∧
      ∀ w ∈ ext, isSupportWrite w = false := by
  unfold syncDeploymentPhase
  rcases hd : getDeployment c n vr.spec.deploymentName with _ | d
  · simp only [hd]
    split
    · exact ⟨[.createDeployment (newDeployment n vr)], rfl, by simp [isSupportWrite]⟩
    · obtain ⟨ext, he, hs⟩ := syncOwnershipPhase_ext
        { c with deployments := c.deployments ++ [newDeployment n vr] } n vr
        (newDeployment n vr) (ws ++ [.createDeployment (newDeployment n vr)])
      refine ⟨.createDeployment (newDeployment n vr) :: ext, ?_, ?_⟩
      · rw [he, List.append_assoc]
        rfl
      · intro w hw
        rcases List.mem_cons.mp hw with hw | hw
        · subst hw
          rfl
        · exact hs w hw
  · simp only [hd]
    exact syncOwnershipPhase_ext c n vr d ws

lemma syncDeploymentPhase_res (c : Cluster) (n : String) (vr : VirtualRouter)
    (ws : List WriteCall) (h : ∀ d ∈ c.deployments, d.spec.replicas ≠ none) :
    (syncDeploymentPhase c n vr ws).res ≠ .panicked := by
  unfold syncDeploymentPhase
  rcases hd : getDeployment c n vr.spec.deploymentName with _ | d
  · simp only [hd]
    split
    · simp
    · apply syncOwnershipPhase_res
      rw [newDeployment_replicas]
      rcases hr : vr.spec.replicas with _ | r
      · exact Or.inl rfl
      · exact Or.inr (by simp [hr])
  · simp only [hd]
    apply syncOwnershipPhase_res
    exact Or.inr (h d (List.mem_of_find?_eq_some hd))

lemma syncDeploymentPhase_updVR (c : Cluster) (n : String) (vr : VirtualRouter)
    (ws : List WriteCall) (u : VirtualRouter)
    (hws : ∀ x : VirtualRouter, WriteCall.updateVirtualRouter x ∉ ws)
    (h : WriteCall.updateVirtualRouter u ∈ (syncDeploymentPhase c n vr ws).writes) :
    ∃ d2, u = updateVirtualRouterStatus vr d2 ∧
      (getDeployment c n vr.spec.deploymentName = some d2 ∨ d2 = newDeployment n vr) := by
  unfold syncDeploymentPhase at h
  rcases hd : getDeployment c n vr.spec.deploymentName with _ | d
  · rw [hd] at h
    simp only [] at h
    split at h
    · simp only [List.mem_append, List.mem_singleton] at h
      rcases h with h | h
      · exact absurd h (hws u)
      · exact absurd h (by simp)
    · have hws2 : ∀ x : VirtualRouter,
          WriteCall.updateVirtualRouter x ∉ ws ++ [WriteCall.createDeployment (newDeployment n vr)] := by
        intro x hx
        simp only [List.mem_append, List.mem_singleton] at hx
        rcases hx with hx | hx
        · exact hws x hx
        · exact WriteCall.noConfusion hx
      rcases syncOwnershipPhase_updVR _ n vr (newDeployment n vr) _ u hws2 h with h2 | h2
      · exact ⟨newDeployment n vr, h2, Or.inr rfl⟩
      · exact ⟨newDeployment n vr, h2, Or.inr rfl⟩
  · rw [hd] at h
    simp only [] at h
    rcases syncOwnershipPhase_updVR c n vr d ws u hws h with h2 | h2
    · exact ⟨d, h2, Or.inl rfl⟩
    · exact ⟨newDeployment n vr, h2, Or.inr rfl⟩

lemma syncHandler_phase (c : Cluster) (key ns name : String) (vr : VirtualRouter)
    (hs : splitMetaNamespaceKey key = some (ns, name))
    (hv : getVR c ns name = some vr)
    (hdn : (vr.spec.deploymentName == "") = false)
    (he : ensureAll c vr.name vr = { cluster := c, writes := [], err := none }) :
    syncHandler c key = syncDeploymentPhase c vr.name vr [] := by
  simp only [syncHandler, hs, hv, hdn, Bool.false_eq_true, if_false, he]

lemma syncHandler_no_panic (c : Cluster) (key : String)
    (h : ∀ d ∈ c.deployments, d.spec.replicas ≠ none) :
    (syncHandler c key).res ≠ .panicked := by
  unfold syncHandler
  rcases hs : splitMetaNamespaceKey key with _ | ⟨ns, name⟩
  · simp
  · simp only []
    rcases hv : getVR c ns name with _ | vr
    · simp
    · simp only []
      split
      · simp
      · rcases he : (ensureAll c vr.name vr).err with _ | e
        · simp only [he]
          apply syncDeploymentPhase_res
          rw [ensureAll_deployments]
          exact h
        · simp only [he]
          simp

lemma find?_filter_of_imp {α : Type} (p q : α → Bool) (l : List α)
    (h : ∀ x, p x = true → q x = true) : (l.filter q).find? p = l.find? p := by
  induction l with
  | nil => rfl
  | cons a t ih =>
    rcases hq : q a with _ | _
    · rcases hp : p a with _ | _
      · simp [List.filter, hq, List.find?, hp, ih]
      · exact absurd (h a hp) (by simp [hq])
    · simp only [List.filter, hq]
      rcases hp : p a with _ | _
      · simp [List.find?, hp, ih]
      · simp [List.find?, hp]

lemma mapLookup_mapInsert (m : List (String × String)) (k0 v k : String) :
    mapLookup (mapInsert m k0 v) k = if (k0 == k) = true then some v else mapLookup m k := by
  rcases h : k0 == k with _ | _
  · simp only [h, Bool.false_eq_true, if_false]
    unfold mapInsert mapLookup
    rw [List.find?_cons_of_neg _ (by simp [h])]
    rw [find?_filter_of_imp]
    intro x hx
    have hxk : x.1 = k := by simpa using hx
    have hne : ¬(k0 = k) := by simpa using h
    have hkk0 : (x.1 == k0) = false := by
      rw [hxk]
      exact beq_eq_false_iff_ne.mpr (fun hkk => hne hkk.symm)
    simp [hkk0]
  · simp only [h, if_true]
    unfold mapInsert mapLookup
    rw [List.find?_cons_of_pos _ (by simp [h])]
    rfl

lemma mapLookup_foldl (entries : List NodeSelectorEntry) (init : List (String × String)) (k : String) :
    mapLookup (entries.foldl (fun acc e => mapInsert acc e.key e.value) init) k
      = ((entries.reverse.find? (fun e => e.key == k)).map (fun e => e.value)).or
          (mapLookup init k) := by
  induction entries generalizing init with
  | nil => simp
  | cons e t ih =>
    simp only [List.foldl, List.reverse_cons, List.find?_append]
    rcases hf : t.reverse.find? (fun e2 => e2.key == k) with _ | x
    · rw [ih, hf, mapLookup_mapInsert]
      rcases hek : e.key == k with _ | _
      · rw [List.find?_cons_of_neg _ (by simp [hek])]
        simp [hek]
      · rw [List.find?_cons_of_pos _ (by simp [hek])]
        simp [hek]
    · rw [ih, hf]
      simp [Option.or]

lemma mapLookup_buildNodeSelectorMap (entries : List NodeSelectorEntry) (k : String) :
    mapLookup (buildNodeSelectorMap entries) k
      = (entries.reverse.find? (fun e => e.key == k)).map (fun e => e.value) := by
  unfold buildNodeSelectorMap
  rw [mapLookup_foldl]
  simp [mapLookup]

/-- Intent fixture: VirtualRouter r1 in namespace default with deployment
name d1 and two replicas. -/
def vrA : VirtualRouter :=
  { name := "r1", ns := "default", uid := 7, resourceVersion := "1"
    spec := { deploymentName := "d1", replicas := some 2, image := "img:v1"
              nodeSelector := [], affinity := "aff" }
    status := { availableReplicas := 0 } }

/-- The cluster after one sync of vrA from the empty cluster: all supporting
objects, the managed deployment and the status are converged (it is a
fixpoint of sync up to the unconditional status write). -/
def convergedCluster : Cluster :=
  (syncHandler (upsertVR emptyCluster vrA) "default/r1").cluster

/-- The cluster holding only the intent object vrA. -/
def freshCluster : Cluster := upsertVR emptyCluster vrA

/-- Claim C3: a malformed key, a NotFound intent object, or an empty
deploymentName each make sync return nil with zero store writes (and no
events, and an unchanged cluster); logging is not modelled. -/
theorem sync_terminal_cases (c : Cluster) (key : String)
    (h : splitMetaNamespaceKey key = none ∨
      (∃ ns name, splitMetaNamespaceKey key = some (ns, name) ∧ getVR c ns name = none) ∨
      (∃ ns name vr, splitMetaNamespaceKey key = some (ns, name) ∧ getVR c ns name = some vr ∧
        vr.spec.deploymentName = "")) :
    syncHandler c key = { res := .ok, writes := [], events := [], cluster := c } := by
  rcases h with h | ⟨ns, name, h1, h2⟩ | ⟨ns, name, vr, h1, h2, h3⟩
  · simp [syncHandler, h]
  · simp [syncHandler, h1, h2]
  · simp [syncHandler, h1, h2, h3]

/-- Witness for C3 at the malformed key "a/b/c" on the empty cluster. -/
theorem sync_terminal_cases_witness :
    splitMetaNamespaceKey "a/b/c" = none ∧
    syncHandler emptyCluster "a/b/c"
      = { res := .ok, writes := [], events := [], cluster := emptyCluster } :=
  ⟨by decide, sync_terminal_cases emptyCluster "a/b/c" (Or.inl (by decide))⟩

/-- Claim C4: the worker loop calls Done exactly once per item (deferred,
hence last), Forgets on a nil sync result, re-adds with rate limiting on a
non-nil result, keeps returning true for items, and returns false exactly
on queue shutdown. -/
theorem process_next_work_item_discipline (g : GetResult) (f : String → Option String) :
    (g = .queueShutDown → processNextWorkItem g f = (false, [])) ∧
    (∀ key, g = .item (.strItem key) →
      (f key = none →
        processNextWorkItem g f
          = (true, [.forgetOp (.strItem key), .doneOp (.strItem key)])) ∧
      (∀ e, f key = some e →
        processNextWorkItem g f = (true, [.addRateLimitedOp key, .doneOp (.strItem key)]))) ∧
    (g = .item .invalidItem →
      processNextWorkItem g f = (true, [.forgetOp .invalidItem, .doneOp .invalidItem])) ∧
    (∀ w, g = .item w → (processNextWorkItem g f).1 = true ∧
      ∃ pre, (processNextWorkItem g f).2 = pre ++ [.doneOp w] ∧ QueueOp.doneOp w ∉ pre) := by
  refine ⟨?_, ?_, ?_, ?_⟩
  · intro h
    subst h
    rfl
  · intro key h
    subst h
    constructor
    · intro hf
      simp [processNextWorkItem, hf]
    · intro e hf
      simp [processNextWorkItem, hf]
  · intro h
    subst h
    rfl
  · intro w h
    subst h
    cases w with
    | invalidItem => exact ⟨rfl, [.forgetOp .invalidItem], rfl, by simp⟩
    | strItem key =>
      rcases hf : f key with _ | e
      · exact ⟨by simp [processNextWorkItem, hf], [.forgetOp (.strItem key)],
          by simp [processNextWorkItem, hf], by simp⟩
      · exact ⟨by simp [processNextWorkItem, hf], [.addRateLimitedOp key],
          by simp [processNextWorkItem, hf], by simp⟩

/-- Witness for C4 at a concrete item and a nil sync result. -/
theorem process_next_work_item_discipline_witness :
    processNextWorkItem (.item (.strItem "default/r1")) (fun _ => none)
      = (true, [.forgetOp (.strItem "default/r1"), .doneOp (.strItem "default/r1")]) :=
  ((process_next_work_item_discipline (.item (.strItem "default/r1"))
    (fun _ => none)).2.1 "default/r1" rfl).1 rfl

/-- Claim C7: newDeployment is a pure projection of (namespace, intent):
name, namespace, replicas, the fixed app label, the identity annotations,
the node-selector map (last entry wins per key), the affinity
pass-through, the single privileged container with the NET_RAW/NET_ADMIN/
SYS_ADMIN capabilities and the POD_NAMESPACE environment entry, and the
controlling owner reference.  Determinism and freedom from side effects
are inherent to it being a function of its two arguments. -/
theorem newDeployment_projection (ns : String) (vr : VirtualRouter) :
    (newDeployment ns vr).name = vr.spec.deploymentName ∧
    (newDeployment ns vr).ns = ns ∧
    (newDeployment ns vr).spec.replicas = vr.spec.replicas ∧
    (newDeployment ns vr).spec.selector.matchLabels = [("app", VIRTUALROUTER_LABEL)] ∧
    (newDeployment ns vr).spec.template.labels = [("app", VIRTUALROUTER_LABEL)] ∧
    (newDeployment ns vr).spec.template.annotations
      = [("customresourceName", vr.name), ("customresourceNamespace", vr.ns)] ∧
    (newDeployment ns vr).spec.template.spec.nodeSelector
      = buildNodeSelectorMap vr.spec.nodeSelector ∧
    (∀ k, mapLookup ((newDeployment ns vr).spec.template.spec.nodeSelector) k
      = (vr.spec.nodeSelector.reverse.find? (fun e => e.key == k)).map (fun e => e.value)) ∧
    (newDeployment ns vr).spec.template.spec.affinity = some vr.spec.affinity ∧
    (newDeployment ns vr).spec.template.spec.containers
      = [{ name := vr.name, image := vr.spec.image, imagePullPolicy := "Always"
           env := [{ name := "POD_NAMESPACE", value := ns }]
           securityContext := some {
             capabilities := some { add := ["NET_RAW", "NET_ADMIN", "SYS_ADMIN"] }
             privileged := some true } }] ∧
    (newDeployment ns vr).ownerReferences = [NewControllerRef vr] ∧
    (NewControllerRef vr).controller = true ∧
    (NewControllerRef vr).uid = vr.uid ∧
    (NewControllerRef vr).kind = "VirtualRouter" :=
  ⟨rfl, rfl, rfl, rfl, rfl, rfl, rfl,
   fun k => mapLookup_buildNodeSelectorMap vr.spec.nodeSelector k,
   rfl, rfl, rfl, rfl, rfl, rfl⟩

/-- Counterexample for C9: a VirtualRouter update event whose old and new
revisions are identical is still routed (its key is enqueued), because the
VirtualRouter informer handler enqueues unconditionally; the
revision-identity suppression exists only on the Deployment handler. -/
theorem vr_resync_update_not_suppressed :
    (vrA.resourceVersion == vrA.resourceVersion) = true ∧
    virtualRouterUpdateHandler vrA vrA = ["default/r1"] := by
  constructor
  · decide
  · decide

/-- Claim C9 (amended): the revision-identity suppression applies only to
owned-object (Deployment) update events; intent-object update events always
enqueue the object's own key; a Deployment update with differing revisions
is routed through the controlling owner reference of kind VirtualRouter,
resolved in the object's own namespace. -/
theorem update_event_routing (c : Cluster) :
    (∀ oldVR newVR : VirtualRouter, virtualRouterUpdateHandler oldVR newVR = [vrKey newVR]) ∧
    (∀ oldD newD : Deployment, (newD.resourceVersion == oldD.resourceVersion) = true →
      deploymentUpdateHandler c oldD newD = []) ∧
    (∀ oldD newD : Deployment, (newD.resourceVersion == oldD.resourceVersion) = false →
      deploymentUpdateHandler c oldD newD = handleObject c newD) ∧
    (∀ oldD newD : Deployment, ∀ ownerRef : OwnerReference, ∀ vr : VirtualRouter,
      (newD.resourceVersion == oldD.resourceVersion) = false →
      getControllerOf newD.ownerReferences = some ownerRef →
      ownerRef.kind = "VirtualRouter" →
      getVR c newD.ns ownerRef.name = some vr →
      deploymentUpdateHandler c oldD newD = [vrKey vr]) := by
  refine ⟨fun _ _ => rfl, ?_, ?_, ?_⟩
  · intro oldD newD h
    simp [deploymentUpdateHandler, h]
  · intro oldD newD h
    simp [deploymentUpdateHandler, h]
  · intro oldD newD ownerRef vr h1 h2 h3 h4
    simp [deploymentUpdateHandler, h1, handleObject, h2, h3, h4, enqueueVirtualRouter]

/-- Witness for C9 at a concrete owned-deployment update with a changed
revision: the owner's key is enqueued. -/
theorem update_event_routing_witness :
    deploymentUpdateHandler freshCluster (newDeployment "default" vrA)
      { newDeployment "default" vrA with resourceVersion := "5" } = ["default/r1"] :=
  (update_event_routing freshCluster).2.2.2 (newDeployment "default" vrA)
    { newDeployment "default" vrA with resourceVersion := "5" } (NewControllerRef vrA) vrA
    (by decide) (by decide) (by decide) (by decide)

/-- Counterexample for C1: convergedCluster is a fixpoint of sync (the
intent object is unchanged and actual equals desired), yet invoking sync on
it — which is exactly the second invocation after the converging one —
still issues one write call: the unconditional status update of the
VirtualRouter.  syncHandler always calls updateVirtualRouterStatus, which
always issues an Update. -/
theorem converged_sync_still_writes :
    (syncHandler convergedCluster "default/r1").cluster = convergedCluster ∧
    (syncHandler convergedCluster "default/r1").res = .ok ∧
    (syncHandler convergedCluster "default/r1").writes
      = [.updateVirtualRouter vrA] := by
  refine ⟨by decide, by decide, by decide⟩

/-- Claim C1 (amended): on a sync over a fully converged state (intent
found, supporting objects present, deployment present, owned, replica
count converged, no injected store errors) the second invocation issues no
Create and no Deployment Update, but it does issue exactly one write: the
unconditional status update of the intent object. -/
theorem converged_sync_single_status_write (c : Cluster) (key ns name : String)
    (vr : VirtualRouter) (d : Deployment)
    (hs : splitMetaNamespaceKey key = some (ns, name))
    (hv : getVR c ns name = some vr)
    (hdn : (vr.spec.deploymentName == "") = false)
    (hg1 : hasGetError c (.kNamespace, "", vr.name) = false)
    (hg2 : hasGetError c (.kServiceAccount, vr.name, SERVICE_ACCOUNT_NAME) = false)
    (hg3 : hasGetError c (.kRole, vr.name, ROLE_NAME) = false)
    (hg4 : hasGetError c (.kRoleBinding, vr.name, ROLE_BINDING_NAME) = false)
    (he1 : nsExists c vr.name = true) (he2 : saExists c vr.name = true)
    (he3 : roleExists c vr.name = true) (he4 : rbExists c vr.name = true)
    (hd : getDeployment c vr.name vr.spec.deploymentName = some d)
    (hown : isControlledBy d vr = true)
    (hconv : replicasConverged vr d = true)
    (hue : hasUpdateError c (.kVirtualRouter, vr.ns, vr.name) = false) :
    (syncHandler c key).writes
      = [.updateVirtualRouter (updateVirtualRouterStatus vr d)] ∧
    (syncHandler c key).res = .ok := by
  have he := ensureAll_noop c vr.name vr hg1 hg2 hg3 hg4 he1 he2 he3 he4
  rw [syncHandler_phase c key ns name vr hs hv hdn he]
  unfold syncDeploymentPhase syncOwnershipPhase syncReplicasPhase syncStatusPhase
  unfold replicasConverged at hconv
  rcases hrep : vr.spec.replicas with _ | r
  · simp [hd, hown, hrep, hue]
  · rw [hrep] at hconv
    have hdr : d.spec.replicas = some r := beq_iff_eq.mp hconv
    simp [hd, hown, hrep, hdr, hue]

/-- Witness for C1's amended theorem on the concrete converged cluster. -/
theorem converged_sync_single_status_write_witness :
    (syncHandler convergedCluster "default/r1").writes
      = [.updateVirtualRouter (updateVirtualRouterStatus vrA (newDeployment "r1" vrA))] ∧
    (syncHandler convergedCluster "default/r1").res = .ok :=
  converged_sync_single_status_write convergedCluster "default/r1" "default" "r1" vrA
    (newDeployment "r1" vrA) (by decide) (by decide) (by decide) (by decide) (by decide)
    (by decide) (by decide) (by decide) (by decide) (by decide) (by decide) (by decide)
    (by decide) (by decide) (by decide)

/-- A Deployment named d1 in namespace r1 with no owner linkage at all
(foreign object). -/
def dForeign : Deployment :=
  { name := "d1", ns := "r1", resourceVersion := "9", ownerReferences := []
    spec := { replicas := some 2, selector := { matchLabels := [] }
              template := { labels := [], annotations := [], finalizers := []
                            spec := { affinity := none, serviceAccountName := ""
                                      nodeSelector := [], containers := [] } } }
    status := { availableReplicas := 0 } }

/-- Cluster fixture for the naming-conflict scenario: the intent object,
all supporting objects, and a foreign deployment of the managed name. -/
def foreignCluster : Cluster :=
  { virtualRouters := [vrA]
    deployments := [dForeign]
    namespaces := [newNamespaceObj "r1" vrA]
    serviceAccounts := [newServiceAccount "r1" vrA]
    roles := [newRole "r1" vrA]
    roleBindings := [newRoleBinding "r1" vrA]
    getErrors := [], createErrors := [], updateErrors := [] }

/-- Claim C2: when the managed Deployment exists in the private namespace
without a controlling owner linkage to this VirtualRouter (supporting
objects present, no injected store errors), sync emits exactly the warning
event, returns the non-nil conflict error, issues zero writes, and leaves
the cluster unchanged. -/
theorem foreign_deployment_conflict (c : Cluster) (key ns name : String)
    (vr : VirtualRouter) (d : Deployment)
    (hs : splitMetaNamespaceKey key = some (ns, name))
    (hv : getVR c ns name = some vr)
    (hdn : (vr.spec.deploymentName == "") = false)
    (hg1 : hasGetError c (.kNamespace, "", vr.name) = false)
    (hg2 : hasGetError c (.kServiceAccount, vr.name, SERVICE_ACCOUNT_NAME) = false)
    (hg3 : hasGetError c (.kRole, vr.name, ROLE_NAME) = false)
    (hg4 : hasGetError c (.kRoleBinding, vr.name, ROLE_BINDING_NAME) = false)
    (he1 : nsExists c vr.name = true) (he2 : saExists c vr.name = true)
    (he3 : roleExists c vr.name = true) (he4 : rbExists c vr.name = true)
    (hd : getDeployment c vr.name vr.spec.deploymentName = some d)
    (hown : isControlledBy d vr = false) :
    syncHandler c key
      = { res := .errored (MessageResourceExists d.name)
          writes := []
          events := [{ etype := .warning, reason := ErrResourceExists
                       message := MessageResourceExists d.name }]
          cluster := c } := by
  have he := ensureAll_noop c vr.name vr hg1 hg2 hg3 hg4 he1 he2 he3 he4
  rw [syncHandler_phase c key ns name vr hs hv hdn he]
  unfold syncDeploymentPhase syncOwnershipPhase
  simp [hd, hown]

/-- Witness for C2 on the concrete foreign-deployment cluster. -/
theorem foreign_deployment_conflict_witness :
    syncHandler foreignCluster "default/r1"
      = { res := .errored (MessageResourceExists dForeign.name)
          writes := []
          events := [{ etype := .warning, reason := ErrResourceExists
                       message := MessageResourceExists dForeign.name }]
          cluster := foreignCluster } :=
  foreign_deployment_conflict foreignCluster "default/r1" "default" "r1" vrA dForeign
    (by decide) (by decide) (by decide) (by decide) (by decide) (by decide) (by decide)
    (by decide) (by decide) (by decide) (by decide) (by decide) (by decide)

/-- Claim C6: with the managed Deployment present and owned (supporting
objects present, no injected store errors): when the intent specifies a
replica count differing from the deployment's, the Deployment write
sub-trace is exactly one Update carrying newDeployment; when the counts
agree or the intent has no replica count, no Deployment write occurs. -/
theorem replica_drift_single_update (c : Cluster) (key ns name : String)
    (vr : VirtualRouter) (d : Deployment)
    (hs : splitMetaNamespaceKey key = some (ns, name))
    (hv : getVR c ns name = some vr)
    (hdn : (vr.spec.deploymentName == "") = false)
    (hg1 : hasGetError c (.kNamespace, "", vr.name) = false)
    (hg2 : hasGetError c (.kServiceAccount, vr.name, SERVICE_ACCOUNT_NAME) = false)
    (hg3 : hasGetError c (.kRole, vr.name, ROLE_NAME) = false)
    (hg4 : hasGetError c (.kRoleBinding, vr.name, ROLE_BINDING_NAME) = false)
    (he1 : nsExists c vr.name = true) (he2 : saExists c vr.name = true)
    (he3 : roleExists c vr.name = true) (he4 : rbExists c vr.name = true)
    (hd : getDeployment c vr.name vr.spec.deploymentName = some d)
    (hown : isControlledBy d vr = true) :
    (vr.spec.replicas = none →
      (syncHandler c key).writes.filter isDeploymentWrite = []) ∧
    (∀ r dr : Int, vr.spec.replicas = some r → d.spec.replicas = some dr →
      ((r = dr → (syncHandler c key).writes.filter isDeploymentWrite = []) ∧
       (r ≠ dr → (syncHandler c key).writes.filter isDeploymentWrite
         = [.updateDeployment (newDeployment vr.name vr)]))) := by
  have he := ensureAll_noop c vr.name vr hg1 hg2 hg3 hg4 he1 he2 he3 he4
  rw [syncHandler_phase c key ns name vr hs hv hdn he]
  unfold syncDeploymentPhase syncOwnershipPhase syncReplicasPhase syncStatusPhase
  constructor
  · intro hrep
    simp [hd, hown, hrep, isDeploymentWrite]
    split <;> simp [isDeploymentWrite]
  · intro r dr hrep hdr
    constructor
    · intro heq
      subst heq
      simp [hd, hown, hrep, hdr]
      split <;> simp [isDeploymentWrite]
    · intro hne
      have hbne : (r != dr) = true := by simpa using hne
      simp [hd, hown, hrep, hdr, hbne]
      split
      · simp [isDeploymentWrite]
      · split <;> simp [isDeploymentWrite]

/-- Witness fixture: the converged cluster after the intent's replica count
was edited from 2 to 3. -/
def vrB : VirtualRouter :=
  { vrA with resourceVersion := "2", spec := { vrA.spec with replicas := some 3 } }

/-- The converged cluster with the updated intent vrB. -/
def driftCluster : Cluster := upsertVR convergedCluster vrB

/-- Witness for C6: replica drift 3 versus 2 yields exactly one Deployment
Update carrying the projected desired state. -/
theorem replica_drift_single_update_witness :
    (syncHandler driftCluster "default/r1").writes.filter isDeploymentWrite
      = [.updateDeployment (newDeployment "r1" vrB)] :=
  ((replica_drift_single_update driftCluster "default/r1" "default" "r1" vrB
    (newDeployment "r1" vrA) (by decide) (by decide) (by decide) (by decide) (by decide)
    (by decide) (by decide) (by decide) (by decide) (by decide) (by decide) (by decide)
    (by decide)).2 3 2 (by decide) (by decide)).2 (by decide)

/-- Whether no supporting-object get or create call has an injected
failure. -/
def noSupportErrors (c : Cluster) (n : String) : Bool :=
  !hasGetError c (.kNamespace, "", n) && !hasCreateError c (.kNamespace, "", n) &&
  !hasGetError c (.kServiceAccount, n, SERVICE_ACCOUNT_NAME) &&
  !hasCreateError c (.kServiceAccount, n, SERVICE_ACCOUNT_NAME) &&
  !hasGetError c (.kRole, n, ROLE_NAME) && !hasCreateError c (.kRole, n, ROLE_NAME) &&
  !hasGetError c (.kRoleBinding, n, ROLE_BINDING_NAME) &&
  !hasCreateError c (.kRoleBinding, n, ROLE_BINDING_NAME)

/-- Claim C5: past validation, the private namespace is the VirtualRouter's
own name and the supporting objects are ensured in the order namespace,
service account, role, role binding with create-if-absent semantics.  With
no injected errors, the supporting-object write sub-trace is exactly the
spec's prescription (creates of the missing objects, in order, each
carrying the controlling owner linkage; existing objects get no write).
With a supporting get error, or a create error on an absent object, sync
aborts with a retryable error and its writes stay within the
supporting-object creates (no deployment or status writes). -/
theorem ensure_supporting_objects (c : Cluster) (key ns name : String) (vr : VirtualRouter)
    (hs : splitMetaNamespaceKey key = some (ns, name))
    (hv : getVR c ns name = some vr)
    (hdn : (vr.spec.deploymentName == "") = false) :
    (noSupportErrors c vr.name = true →
      (syncHandler c key).writes.filter isSupportWrite = specSupportWrites c vr.name vr) ∧
    (supportAborts c vr.name = true →
      (∃ e, (syncHandler c key).res = .errored e) ∧
      ∀ w ∈ (syncHandler c key).writes, isSupportWrite w = true) := by
  constructor
  · intro hne
    simp only [noSupportErrors, Bool.and_eq_true] at hne
    obtain ⟨⟨⟨⟨⟨⟨⟨n1, n2⟩, n3⟩, n4⟩, n5⟩, n6⟩, n7⟩, n8⟩ := hne
    simp only [Bool.not_eq_eq_eq_not, Bool.not_true] at n1 n2 n3 n4 n5 n6 n7 n8
    obtain ⟨hE, hW, _, _, _, _, _⟩ :=
      ensureAll_noErrors c vr.name vr n1 n3 n5 n7 n2 n4 n6 n8
    simp only [syncHandler, hs, hv, hdn, Bool.false_eq_true, if_false]
    rw [hE]
    obtain ⟨ext, hext, hns⟩ :=
      syncDeploymentPhase_ext (ensureAll c vr.name vr).cluster vr.name vr
        (ensureAll c vr.name vr).writes
    rw [hext, List.filter_append, hW]
    have h1 : (specSupportWrites c vr.name vr).filter isSupportWrite
        = specSupportWrites c vr.name vr := by
      rw [List.filter_eq_self]
      intro a ha
      rw [← hW] at ha
      exact ensureAll_writes_support c vr.name vr a ha
    have h2 : ext.filter isSupportWrite = [] := by
      rw [List.filter_eq_nil_iff]
      intro a ha
      simp [hns a ha]
    rw [h1, h2, List.append_nil]
  · intro hab
    have hiss : (ensureAll c vr.name vr).err.isSome = true := by
      rw [ensureAll_err_isSome]
      exact hab
    obtain ⟨e, he⟩ := Option.isSome_iff_exists.mp hiss
    simp only [syncHandler, hs, hv, hdn, Bool.false_eq_true, if_false]
    rw [he]
    exact ⟨⟨e, rfl⟩, ensureAll_writes_support c vr.name vr⟩

/-- Cluster fixture with an injected transient get error on the service
account. -/
def errCluster : Cluster :=
  { freshCluster with getErrors := [(.kServiceAccount, "r1", SERVICE_ACCOUNT_NAME)] }

/-- Witness for C5: the fresh cluster gets all four supporting creates in
order; the error cluster aborts with an error and support-only writes. -/
theorem ensure_supporting_objects_witness :
    ((syncHandler freshCluster "default/r1").writes.filter isSupportWrite
      = specSupportWrites freshCluster "r1" vrA) ∧
    (∃ e, (syncHandler errCluster "default/r1").res = .errored e) ∧
    (∀ w ∈ (syncHandler errCluster "default/r1").writes, isSupportWrite w = true) :=
  ⟨(ensure_supporting_objects freshCluster "default/r1" "default" "r1" vrA
      (by decide) (by decide) (by decide)).1 (by decide),
   (ensure_supporting_objects errCluster "default/r1" "default" "r1" vrA
      (by decide) (by decide) (by decide)).2 (by decide)⟩

/-- Claim C8: every VirtualRouter object written by sync is the deep copy
of the fetched intent object with only Status.AvailableReplicas changed, to
the observed available-replica count of the deployment used by that sync
(the one read from the store, or the freshly projected one on the create
and update paths); the spec and identity fields of the written object are
those of the cached object, which itself is never mutated (in this pure
embedding the cached value is immutable by construction, and the copy is
the separate value updateVirtualRouterStatus vr d). -/
theorem status_write_copy_discipline (c : Cluster) (key : String) (u : VirtualRouter)
    (h : WriteCall.updateVirtualRouter u ∈ (syncHandler c key).writes) :
    ∃ ns name vr, splitMetaNamespaceKey key = some (ns, name) ∧
      getVR c ns name = some vr ∧
      ∃ d, u = updateVirtualRouterStatus vr d ∧
        u.spec = vr.spec ∧ u.name = vr.name ∧ u.ns = vr.ns ∧ u.uid = vr.uid ∧
        u.resourceVersion = vr.resourceVersion ∧
        u.status.availableReplicas = d.status.availableReplicas ∧
        (getDeployment c vr.name vr.spec.deploymentName = some d ∨
          d = newDeployment vr.name vr) := by
  unfold syncHandler at h
  rcases hs : splitMetaNamespaceKey key with _ | ⟨ns, name⟩
  · rw [hs] at h
    exact absurd h (List.not_mem_nil _)
  · rw [hs] at h
    simp only [] at h
    rcases hv : getVR c ns name with _ | vr
    · rw [hv] at h
      exact absurd h (List.not_mem_nil _)
    · rw [hv] at h
      simp only [] at h
      split at h
      · exact absurd h (List.not_mem_nil _)
      · rcases he : (ensureAll c vr.name vr).err with _ | e
        · rw [he] at h
          simp only [] at h
          have hws : ∀ x : VirtualRouter,
              WriteCall.updateVirtualRouter x ∉ (ensureAll c vr.name vr).writes := by
            intro x hx
            have := ensureAll_writes_support c vr.name vr _ hx
            simp [isSupportWrite] at this
          obtain ⟨d2, hu, hloc⟩ :=
            syncDeploymentPhase_updVR (ensureAll c vr.name vr).cluster vr.name vr
              (ensureAll c vr.name vr).writes u hws h
          refine ⟨ns, name, vr, rfl, hv, d2, hu, ?_, ?_, ?_, ?_, ?_, ?_, ?_⟩
          · rw [hu]; rfl
          · rw [hu]; rfl
          · rw [hu]; rfl
          · rw [hu]; rfl
          · rw [hu]; rfl
          · rw [hu]; rfl
          · rcases hloc with hloc | hloc
            · rw [getDeployment_congr _ c _ _ (ensureAll_deployments c vr.name vr)] at hloc
              exact Or.inl hloc
            · exact Or.inr hloc
        · rw [he] at h
          simp only [] at h
          have := ensureAll_writes_support c vr.name vr _ h
          simp [isSupportWrite] at this

/-- Witness for C8 on the fresh cluster (create path): the single status
write is the copy of vrA with the created deployment's observed count. -/
theorem status_write_copy_discipline_witness :
    ∃ ns name vr, splitMetaNamespaceKey "default/r1" = some (ns, name) ∧
      getVR freshCluster ns name = some vr ∧
      ∃ d, updateVirtualRouterStatus vrA (newDeployment "r1" vrA)
          = updateVirtualRouterStatus vr d ∧
        (updateVirtualRouterStatus vrA (newDeployment "r1" vrA)).spec = vr.spec ∧
        (updateVirtualRouterStatus vrA (newDeployment "r1" vrA)).name = vr.name ∧
        (updateVirtualRouterStatus vrA (newDeployment "r1" vrA)).ns = vr.ns ∧
        (updateVirtualRouterStatus vrA (newDeployment "r1" vrA)).uid = vr.uid ∧
        (updateVirtualRouterStatus vrA (newDeployment "r1" vrA)).resourceVersion
          = vr.resourceVersion ∧
        (updateVirtualRouterStatus vrA (newDeployment "r1" vrA)).status.availableReplicas
          = d.status.availableReplicas ∧
        (getDeployment freshCluster vr.name vr.spec.deploymentName = some d ∨
          d = newDeployment vr.name vr) :=
  status_write_copy_discipline freshCluster "default/r1"
    (updateVirtualRouterStatus vrA (newDeployment "r1" vrA)) (by decide)

/-- The intent vrA without a replica count. -/
def vrNoReplicas : VirtualRouter :=
  { vrA with spec := { vrA.spec with replicas := none } }

/-- A reachable cluster that panics the replica comparison: sync once with
no replica count (creating a deployment whose Spec.Replicas is nil because
newDeployment copies the intent's nil pointer), then the user sets a
replica count on the intent. -/
def panicCluster : Cluster :=
  upsertVR (syncHandler (upsertVR emptyCluster vrNoReplicas) "default/r1").cluster vrA

/-- Counterexample for C10: panicCluster is reachable (empty cluster, user
creates the intent without replicas, the controller syncs, the user then
specifies replicas), and sync on it dereferences the deployment's nil
replicas pointer. -/
theorem replica_comparison_panics :
    Reachable panicCluster ∧ (syncHandler panicCluster "default/r1").res = .panicked := by
  constructor
  · exact Reachable.userUpsertVR _ vrA
      (Reachable.controllerSync _ "default/r1"
        (Reachable.userUpsertVR _ vrNoReplicas Reachable.init))
  · decide

/-- Claim C10 (amended): the replica comparison dereferences no nil pointer
provided every Deployment in the store has a non-nil Spec.Replicas; without
that proviso the claim fails, because newDeployment copies the intent's
possibly-nil replicas into the created Deployment (see the reachable
counterexample). -/
theorem no_panic_with_populated_replicas (c : Cluster) (key : String)
    (h : ∀ d ∈ c.deployments, d.spec.replicas ≠ none) :
    (syncHandler c key).res ≠ .panicked :=
  syncHandler_no_panic c key h

/-- Witness for C10's amended theorem on the converged cluster, whose only
deployment carries replicas two. -/
theorem no_panic_with_populated_replicas_witness :
    (syncHandler convergedCluster "default/r1").res ≠ .panicked :=
  no_panic_with_populated_replicas convergedCluster "default/r1" (by decide)
